import Mathlib

/-
Shallow embedding of the SX128x radio driver (src/src/lib.rs).

The driver is modelled as a state+writer monad over an abstract bus oracle
("Hal"): each driver operation consumes a driver state (the retained
Configuration plus the mirrored packet type), issues an ordered list of bus
transactions (the write trace), and either returns a value or an Error, as
the Rust functions do.  The Hal oracle decides, per transaction index and
operation, whether the transaction succeeds (and which bytes a read
returns) or fails with a bus error.

The repository ships only src/src/lib.rs and src/src/device/lora.rs; the
rest of the device module (the Config/Modem/Channel/PacketType/Commands/
Registers/Irq declarations) is referenced but absent from src, so those
declarations are modelled from the spec where noted.
-/

deriving instance DecidableEq for Except

namespace Sx128x

/-- Coarse operating states of the device, as used by set_state/get_state in
src/src/lib.rs (the enum itself lives in the device module). -/
inductive State
  | Sleep
  | StandbyRc
  | StandbyXosc
  | Fs
  | Tx
  | Rx
deriving DecidableEq, Repr

/-- Driver error taxonomy, from the Error enum of src/src/lib.rs.  The
generic CommsError/PinError payloads are represented by Nat.  The extra
Panic variant models the unimplemented!() panic reachable in
get_packet_info with PacketType::None (a panic is not an Error value in the
source; the embedding needs a total result). -/
inductive Error
  | Comms (e : Nat)
  | Pin (e : Nat)
  | Aborted
  | Timeout
  | BusyTimeout
  | InvalidCrc
  | InvalidLength
  | InvalidSync
  | Abort
  | InvalidState (expected actual : State)
  | InvalidDevice (version : Nat)
  | InvalidResponse (b : Nat)
  | InvalidConfiguration
  | InvalidFrequency
  | NoComms
  | Panic
deriving DecidableEq, Repr

/-- Command opcodes issued through the Hal (names as used in
src/src/lib.rs; their numeric values live in the absent device module, so
commands are kept symbolic). -/
inductive Commands
  | GetStatus
  | SetSleep
  | SetStandby
  | SetFs
  | SetTx
  | SetRx
  | SetPacketType
  | SetRfFrequency
  | SetTxParams
  | SetDioIrqParams
  | SetPacketParams
  | SetModulationParams
  | GetRxBufferStatus
  | GetPacketStatus
  | GetIrqStatus
  | ClearIrqStatus
  | Calibrate
  | SetRegulatorMode
  | SetAutoTx
  | SetBufferBaseAddress
  | SetRangingRole
  | GetRssiInst
deriving DecidableEq, Repr

/-- Register names used in src/src/lib.rs. -/
inductive Registers
  | LrFirmwareVersionMsb
  | LrPayloadLength
  | LrSyncWordBaseAddress1
  | LrSyncWordBaseAddress2
  | LrSyncWordBaseAddress3
  | LrSyncWordTolerance
deriving DecidableEq, Repr

/-- Modelled from the spec: numeric register addresses (the device module
holding them is absent from src; set_syncword performs address arithmetic
on them, so symbolic names do not suffice).  No claim depends on the
particular values, only on distinctness of the base addresses. -/
def Registers.addr : Registers → Nat
  | Registers.LrFirmwareVersionMsb => 0x0153
  | Registers.LrPayloadLength => 0x0901
  | Registers.LrSyncWordBaseAddress1 => 0x09CE
  | Registers.LrSyncWordBaseAddress2 => 0x09D3
  | Registers.LrSyncWordBaseAddress3 => 0x09D8
  | Registers.LrSyncWordTolerance => 0x09CD

/-- One bus transaction as seen by the Hal (base::Hal capability of
src/src/lib.rs). -/
inductive BusOp
  | reset
  | writeCmd (c : Commands) (data : List Nat)
  | readCmd (c : Commands) (len : Nat)
  | writeRegs (addr : Nat) (data : List Nat)
  | readRegs (addr : Nat) (len : Nat)
  | writeBuff (offset : Nat) (data : List Nat)
  | readBuff (offset : Nat) (len : Nat)
  | delayMs (t : Nat)
deriving DecidableEq, Repr

/-- Result of one Hal transaction: success (with response bytes, meaningful
for reads) or a bus error. -/
inductive HalResult
  | ok (bytes : List Nat)
  | err (e : Error)
deriving DecidableEq, Repr

/-- The bus oracle: the outcome of the n-th transaction of a run, given the
operation performed. -/
def Hal : Type := Nat → BusOp → HalResult

/-- LoRa header mode (src/src/device/lora.rs is in src but does not declare
LoRaHeader; lib.rs imports it from there).  Modelled from the spec: header
type is implicit or explicit; the byte value is used only opaquely. -/
inductive LoRaHeader
  | Explicit
  | Implicit
deriving DecidableEq, Repr

/-- Modelled from the spec: byte encoding of the LoRa header mode (absent
from src; no claim depends on the values). -/
def LoRaHeader.toByte : LoRaHeader → Nat
  | LoRaHeader.Explicit => 0x00
  | LoRaHeader.Implicit => 0x80

/-- Modelled from the spec: GFSK channel parameters (frequency plus
bitrate/bandwidth, modulation index, shaping), fields as read by
set_channel in src/src/lib.rs. -/
structure GfskChannel where
  freq : Nat
  br_bw : Nat
  mi : Nat
  ms : Nat
deriving DecidableEq, Repr

/-- Modelled from the spec: LoRa/Ranging channel parameters (frequency plus
spreading factor, bandwidth, coding rate), fields as read by set_channel in
src/src/lib.rs. -/
structure LoRaChannel where
  freq : Nat
  sf : Nat
  bw : Nat
  cr : Nat
deriving DecidableEq, Repr

/-- Modelled from the spec: FLRC channel parameters, fields as read by
set_channel in src/src/lib.rs. -/
structure FlrcChannel where
  freq : Nat
  br_bw : Nat
  cr : Nat
  ms : Nat
deriving DecidableEq, Repr

/-- Modelled from the spec: BLE channel parameters, fields as read by
set_channel in src/src/lib.rs. -/
structure BleChannel where
  freq : Nat
  br_bw : Nat
  mi : Nat
  ms : Nat
deriving DecidableEq, Repr

/-- Channel variants per packet family (declared in the absent device
module; variant names and field uses are those of src/src/lib.rs). -/
inductive Channel
  | Gfsk (c : GfskChannel)
  | LoRa (c : LoRaChannel)
  | Ranging (c : LoRaChannel)
  | Flrc (c : FlrcChannel)
  | Ble (c : BleChannel)
deriving DecidableEq, Repr

/-- Modelled from the spec: ch.frequency() returns the configured frequency
in Hz for every channel variant. -/
def Channel.frequency : Channel → Nat
  | Channel.Gfsk c => c.freq
  | Channel.LoRa c => c.freq
  | Channel.Ranging c => c.freq
  | Channel.Flrc c => c.freq
  | Channel.Ble c => c.freq

/-- Modelled from the spec: GFSK packet (modem) parameters, fields as read
by configure_modem in src/src/lib.rs.  Field values are the bytes the
source obtains by the `as u8` casts. -/
structure GfskPacketConfig where
  preamble_length : Nat
  sync_word_length : Nat
  sync_word_match : Nat
  header_type : Nat
  payload_length : Nat
  crc_mode : Nat
  whitening : Nat
deriving DecidableEq, Repr

/-- Modelled from the spec: LoRa/Ranging packet (modem) parameters, fields
as read by configure_modem and get_rx_buffer_status in src/src/lib.rs. -/
structure LoRaPacketConfig where
  preamble_length : Nat
  header_type : LoRaHeader
  payload_length : Nat
  crc_mode : Nat
  invert_iq : Nat
deriving DecidableEq, Repr

/-- Modelled from the spec: FLRC packet (modem) parameters, fields as read
by configure_modem in src/src/lib.rs (including the optional sync word
value programmed via set_syncword). -/
structure FlrcPacketConfig where
  preamble_length : Nat
  sync_word_length : Nat
  sync_word_match : Nat
  header_type : Nat
  payload_length : Nat
  crc_mode : Nat
  whitening : Nat
  sync_word_value : Option (List Nat)
deriving DecidableEq, Repr

/-- Modelled from the spec: BLE packet (modem) parameters, fields as read
by configure_modem in src/src/lib.rs. -/
structure BlePacketConfig where
  connection_state : Nat
  crc_field : Nat
  packet_type : Nat
  whitening : Nat
deriving DecidableEq, Repr

/-- Modem variants per packet family (declared in the absent device module;
variant names and field uses are those of src/src/lib.rs). -/
inductive Modem
  | Gfsk (c : GfskPacketConfig)
  | LoRa (c : LoRaPacketConfig)
  | Ranging (c : LoRaPacketConfig)
  | Flrc (c : FlrcPacketConfig)
  | Ble (c : BlePacketConfig)
  | None
deriving DecidableEq, Repr

/-- Packet type tracked by the driver (device module, used throughout
src/src/lib.rs). -/
inductive PacketType
  | None
  | Gfsk
  | LoRa
  | Flrc
  | Ble
  | Ranging
deriving DecidableEq, Repr

/-- Modelled from the spec: byte encoding of PacketType for the
SetPacketType command (values absent from src; no claim depends on them). -/
def PacketType.toByte : PacketType → Nat
  | PacketType.Gfsk => 0x00
  | PacketType.LoRa => 0x01
  | PacketType.Ranging => 0x02
  | PacketType.Flrc => 0x03
  | PacketType.Ble => 0x04
  | PacketType.None => 0x0F

/-- Modelled from the spec: PacketType::from(&Channel) -- the packet type
is the channel's family tag. -/
def PacketType.ofChannel : Channel → PacketType
  | Channel.Gfsk _ => PacketType.Gfsk
  | Channel.LoRa _ => PacketType.LoRa
  | Channel.Ranging _ => PacketType.Ranging
  | Channel.Flrc _ => PacketType.Flrc
  | Channel.Ble _ => PacketType.Ble

/-- Modelled from the spec: PacketType::from(&Modem) -- the packet type is
the modem's family tag. -/
def PacketType.ofModem : Modem → PacketType
  | Modem.Gfsk _ => PacketType.Gfsk
  | Modem.LoRa _ => PacketType.LoRa
  | Modem.Ranging _ => PacketType.Ranging
  | Modem.Flrc _ => PacketType.Flrc
  | Modem.Ble _ => PacketType.Ble
  | Modem.None => PacketType.None

/-- Power amplifier configuration: power in dBm (i8 in the source, Int
here) and ramp time (byte value of the RampTime enum from the absent
device module). -/
structure PaConfig where
  power : Int
  ramp_time : Nat
deriving DecidableEq, Repr

/-- Modelled from the spec: RF timeout policy, exposing the step unit byte
and the 16-bit count used by start_transmit/start_receive in
src/src/lib.rs (the Timeout type itself is in the absent device module). -/
structure Timeout where
  step : Nat
  count : Nat
deriving DecidableEq, Repr

/-- Driver configuration (device::Config, absent from src; fields as read
by src/src/lib.rs).  regulator_mode holds the byte value of the
RegulatorMode enum. -/
structure Config where
  regulator_mode : Nat
  channel : Channel
  modem : Modem
  pa_config : PaConfig
  rf_timeout : Timeout
  skip_version_check : Bool
deriving DecidableEq, Repr

/-- Modelled from the spec: Config::default(), used by Sx128x::build.  Its
particular values are irrelevant to every claim (new overwrites the
retained copy through configure); concrete values are chosen so the model
stays executable. -/
def Config.default : Config :=
  { regulator_mode := 0
    channel := Channel.LoRa { freq := 2440000000, sf := 0x70, bw := 0x26, cr := 0x01 }
    modem := Modem.LoRa
      { preamble_length := 12, header_type := LoRaHeader.Explicit
        payload_length := 255, crc_mode := 0x20, invert_iq := 0x40 }
    pa_config := { power := 10, ramp_time := 0xE0 }
    rf_timeout := { step := 0, count := 0 }
    skip_version_check := false }

/-- Driver-retained mutable state: the retained Configuration copy and the
mirrored packet type (fields config/packet_type of struct Sx128x in
src/src/lib.rs). -/
structure Sx128xState where
  config : Config
  packet_type : PacketType
deriving DecidableEq, Repr

/-- Machine state threaded through a run: driver state plus the index of
the next bus transaction (used to address the Hal oracle). -/
structure DSt where
  drv : Sx128xState
  calls : Nat
deriving DecidableEq, Repr

/-- A driver computation: from a machine state, produce a result or error,
the next machine state, and the ordered trace of bus transactions issued. -/
def M (α : Type) : Type := DSt → Except Error α × DSt × List BusOp

/-- Return without touching the device. -/
def M.pure {α : Type} (a : α) : M α := fun s => (Except.ok a, s, [])

/-- Sequencing: on error the continuation is not run (Rust ? operator);
traces concatenate in issue order. -/
def M.bind {α β : Type} (x : M α) (f : α → M β) : M β := fun s =>
  match x s with
  | (Except.ok a, s1, t1) =>
    match f a s1 with
    | (r, s2, t2) => (r, s2, t1 ++ t2)
  | (Except.error e, s1, t1) => (Except.error e, s1, t1)

/-- Early return with an error (Rust return Err(e)). -/
def throwE {α : Type} (e : Error) : M α := fun s => (Except.error e, s, [])

/-- Read the driver state (access to self). -/
def getDrv : M Sx128xState := fun s => (Except.ok s.drv, s, [])

/-- Update the driver state (assignment to a field of self). -/
def modifyDrv (f : Sx128xState → Sx128xState) : M Unit := fun s =>
  (Except.ok (), { s with drv := f s.drv }, [])

/-- Outcome of a transaction used for its response bytes (reads): bytes
are normalised to u8 range. -/
def readResult : HalResult → Except Error (List Nat)
  | HalResult.ok bs => Except.ok (bs.map (fun b => b % 256))
  | HalResult.err e => Except.error e

/-- Outcome of a transaction used only for success/failure (writes). -/
def writeResult : HalResult → Except Error Unit
  | HalResult.ok _ => Except.ok ()
  | HalResult.err e => Except.error e

/-- Issue one bus transaction: consult the oracle at the current
transaction index, record the op in the trace, normalise response bytes to
u8 range. -/
def halOp (hal : Hal) (op : BusOp) : M (List Nat) := fun s =>
  (readResult (hal s.calls op), { s with calls := s.calls + 1 }, [op])

/-- hal.write_cmd. -/
def write_cmd (hal : Hal) (c : Commands) (data : List Nat) : M Unit :=
  M.bind (halOp hal (BusOp.writeCmd c data)) (fun _ => M.pure ())

/-- hal.read_cmd into a buffer of the given length. -/
def read_cmd (hal : Hal) (c : Commands) (len : Nat) : M (List Nat) :=
  halOp hal (BusOp.readCmd c len)

/-- hal.write_regs. -/
def write_regs (hal : Hal) (addr : Nat) (data : List Nat) : M Unit :=
  M.bind (halOp hal (BusOp.writeRegs addr data)) (fun _ => M.pure ())

/-- hal.read_reg (single register). -/
def read_reg (hal : Hal) (addr : Nat) : M Nat :=
  M.bind (halOp hal (BusOp.readRegs addr 1)) (fun d => M.pure (d.getD 0 0))

/-- hal.write_reg (single register). -/
def write_reg (hal : Hal) (addr : Nat) (v : Nat) : M Unit :=
  write_regs hal addr [v]

/-- hal.reset. -/
def hal_reset (hal : Hal) : M Unit :=
  M.bind (halOp hal BusOp.reset) (fun _ => M.pure ())

/-- Frequency bounds from src/src/lib.rs. -/
def FREQ_MIN : Nat := 2400000000

/-- Frequency bounds from src/src/lib.rs. -/
def FREQ_MAX : Nat := 2500000000

/-- IRQ flag bit masks.  Modelled from the spec: the bitflags declaration
is in the absent device module; the masks are the chip's 16 interrupt bits
(all 16 bits are defined flags, so Irq::from_bits on a 16-bit value never
fails).  No claim depends on the particular positions. -/
def Irq.TX_DONE : Nat := 0x0001

/-- IRQ flag bit mask (see Irq.TX_DONE). -/
def Irq.RX_DONE : Nat := 0x0002

/-- IRQ flag bit mask (see Irq.TX_DONE). -/
def Irq.SYNCWORD_VALID : Nat := 0x0004

/-- IRQ flag bit mask (see Irq.TX_DONE). -/
def Irq.SYNCWORD_ERROR : Nat := 0x0008

/-- IRQ flag bit mask (see Irq.TX_DONE). -/
def Irq.HEADER_VALID : Nat := 0x0010

/-- IRQ flag bit mask (see Irq.TX_DONE). -/
def Irq.HEADER_ERROR : Nat := 0x0020

/-- IRQ flag bit mask (see Irq.TX_DONE). -/
def Irq.CRC_ERROR : Nat := 0x0040

/-- IRQ flag bit mask (see Irq.TX_DONE). -/
def Irq.RX_TX_TIMEOUT : Nat := 0x4000

/-- IRQ flag bit mask (see Irq.TX_DONE). -/
def Irq.PREAMBLE_DETECTED : Nat := 0x8000

/-- bitflags contains: every bit of the mask is set in the flag word. -/
def Irq.contains (irq mask : Nat) : Bool := irq &&& mask == mask

/-- Ranging role bytes (SetRangingRole payloads; values modelled from the
spec, no claim depends on them). -/
def RangingRole.Initiator : Nat := 0x01

/-- Ranging role byte (see RangingRole.Initiator). -/
def RangingRole.Responder : Nat := 0x00

/-- Command status field parse of the GetStatus byte (CommandStatus
try_from; the enum is in the absent device module).  Modelled from the
spec: part of the 3-bit status space is defined, the rest is an
InvalidResponse.  Claims do not depend on the exact table. -/
inductive CommandStatus
  | Processed
  | DataAvailable
  | CommandTimeout
  | ProcessingError
  | ExecutionFailure
  | TxDone
deriving DecidableEq, Repr

/-- Modelled from the spec: fallible parse of the 3-bit command status
field (see CommandStatus). -/
def CommandStatus.tryFrom : Nat → Option CommandStatus
  | 1 => some CommandStatus.Processed
  | 2 => some CommandStatus.DataAvailable
  | 3 => some CommandStatus.CommandTimeout
  | 4 => some CommandStatus.ProcessingError
  | 5 => some CommandStatus.ExecutionFailure
  | 6 => some CommandStatus.TxDone
  | _ => none

/-- Modelled from the spec: fallible parse of the 3-bit circuit mode field
of the GetStatus byte into a State (State try_from in the absent device
module); unmapped values are an InvalidResponse. -/
def State.tryFrom : Nat → Option State
  | 2 => some State.StandbyRc
  | 3 => some State.StandbyXosc
  | 4 => some State.Fs
  | 5 => some State.Tx
  | 6 => some State.Rx
  | _ => none

/-- Packet status decoded by get_packet_info (struct PacketInfo of the
absent device module; the status/flag fields keep the raw bytes since the
bitflags tables are absent from src). -/
structure PacketInfo where
  rssi : Int
  snr : Option Int
  packet_status : Nat
  tx_rx_status : Nat
  sync_addr_status : Nat
deriving DecidableEq, Repr

/-- Sx128x::set_state (src/src/lib.rs): issue the command mapped from the
target state, with a single zero payload byte. -/
def set_state (hal : Hal) (state : State) : M Unit :=
  let command := match state with
    | State.Tx => Commands.SetTx
    | State.Rx => Commands.SetRx
    | State.Fs => Commands.SetFs
    | State.StandbyRc => Commands.SetStandby
    | State.StandbyXosc => Commands.SetStandby
    | State.Sleep => Commands.SetSleep
  write_cmd hal command [0]

/-- Sx128x::get_state (src/src/lib.rs): read the GetStatus byte, parse the
mode and command-status fields, failing with InvalidResponse on unmapped
values. -/
def get_state (hal : Hal) : M State :=
  M.bind (read_cmd hal Commands.GetStatus 1) (fun d =>
    let b := d.getD 0 0
    let mode := (b &&& 0b11100000) >>> 5
    match State.tryFrom mode with
    | none => throwE (Error.InvalidResponse b)
    | some m =>
      let status := (b &&& 0b00011100) >>> 2
      match CommandStatus.tryFrom status with
      | none => throwE (Error.InvalidResponse b)
      | some _ => M.pure m)

/-- Sx128x::firmware_version (src/src/lib.rs): read two registers from
LrFirmwareVersionMsb and combine big-endian. -/
def firmware_version (hal : Hal) : M Nat :=
  M.bind (halOp hal (BusOp.readRegs (Registers.addr Registers.LrFirmwareVersionMsb) 2))
    (fun d => M.pure ((d.getD 0 0) <<< 8 ||| d.getD 1 0))

/-- Sx128x::set_frequency (src/src/lib.rs): convert to chip steps and
write the three big-endian bytes with SetRfFrequency.  The conversion
Config::freq_to_steps uses f32 arithmetic whose table is absent from src,
so the model is parametric in the conversion function fts. -/
def set_frequency (fts : Nat → Nat) (hal : Hal) (f : Nat) : M Unit :=
  let c := fts f
  write_cmd hal Commands.SetRfFrequency [(c >>> 16) % 256, (c >>> 8) % 256, c % 256]

/-- Sx128x::set_power_ramp (src/src/lib.rs): clamp power to [-18, 13]
(out-of-range only warns), record the clamped power and the ramp into the
retained pa_config, then write SetTxParams with the +18-offset register
byte.  Note the retained copy is updated before the bus write, as in the
source. -/
def set_power_ramp (hal : Hal) (power : Int) (ramp : Nat) : M Unit :=
  let power1 := max power (-18)
  let power2 := min power1 13
  let power_reg := (power2 + 18).toNat
  M.bind (modifyDrv (fun d =>
    { d with config := { d.config with
        pa_config := { power := power2, ramp_time := ramp } } }))
    (fun _ => write_cmd hal Commands.SetTxParams [power_reg, ramp])

/-- Sx128x::set_irq_mask (src/src/lib.rs): write the 16-bit mask
big-endian with SetDioIrqParams. -/
def set_irq_mask (hal : Hal) (irq : Nat) : M Unit :=
  write_cmd hal Commands.SetDioIrqParams [(irq >>> 8) % 256, irq &&& 0xff]

/-- Sx128x::set_regulator_mode (src/src/lib.rs). -/
def set_regulator_mode (hal : Hal) (r : Nat) : M Unit :=
  write_cmd hal Commands.SetRegulatorMode [r]

/-- Sx128x::set_buff_base_addr (src/src/lib.rs). -/
def set_buff_base_addr (hal : Hal) (tx rx : Nat) : M Unit :=
  write_cmd hal Commands.SetBufferBaseAddress [tx, rx]

/-- The sync word address/length table of Sx128x::set_syncword
(src/src/lib.rs): base register and mandated length per (packet type,
index); none encodes the catch-all error arm. -/
def syncWordEntry (pt : PacketType) (index : Nat) : Option (Nat × Nat) :=
  match pt, index with
  | PacketType.Gfsk, 1 => some (Registers.addr Registers.LrSyncWordBaseAddress1, 5)
  | PacketType.Gfsk, 2 => some (Registers.addr Registers.LrSyncWordBaseAddress2, 5)
  | PacketType.Gfsk, 3 => some (Registers.addr Registers.LrSyncWordBaseAddress3, 5)
  | PacketType.Flrc, 1 => some (Registers.addr Registers.LrSyncWordBaseAddress1 + 1, 4)
  | PacketType.Flrc, 2 => some (Registers.addr Registers.LrSyncWordBaseAddress2 + 1, 4)
  | PacketType.Flrc, 3 => some (Registers.addr Registers.LrSyncWordBaseAddress3 + 1, 4)
  | PacketType.Ble, _ => some (Registers.addr Registers.LrSyncWordBaseAddress1 + 1, 4)
  | _, _ => none

/-- Sx128x::set_syncword (src/src/lib.rs): look up the base address and
mandated length for the active packet type and index (InvalidConfiguration
outside the table), check the value length (InvalidConfiguration on
mismatch), write the sync word registers, and in FLRC mode additionally
patch the tolerance register to force exact matching. -/
def set_syncword (hal : Hal) (index : Nat) (value : List Nat) : M Unit :=
  M.bind getDrv (fun st =>
    match syncWordEntry st.packet_type index with
    | none => throwE Error.InvalidConfiguration
    | some (addr, len) =>
      if value.length ≠ len then throwE Error.InvalidConfiguration
      else
        M.bind (write_regs hal addr value) (fun _ =>
          match st.packet_type with
          | PacketType.Flrc =>
            M.bind (read_reg hal (Registers.addr Registers.LrSyncWordTolerance)) (fun r =>
              write_reg hal (Registers.addr Registers.LrSyncWordTolerance) (r &&& 0xF0))
          | _ => M.pure ()))

/-- The packet-type switch snippet duplicated inline in Sx128x::set_channel
and Sx128x::configure_modem (src/src/lib.rs): if the mirrored packet type
differs from the target, write SetPacketType and update the mirror. -/
def update_packet_type (hal : Hal) (pt : PacketType) : M Unit :=
  M.bind getDrv (fun st =>
    if st.packet_type = pt then M.pure ()
    else
      M.bind (write_cmd hal Commands.SetPacketType [pt.toByte]) (fun _ =>
        modifyDrv (fun d => { d with packet_type := pt })))

/-- Sx128x::configure_modem (src/src/lib.rs): switch packet type if
required, write the per-family packet parameter bytes with
SetPacketParams, and for FLRC with a configured sync word value program it
via set_syncword at index 1. -/
def configure_modem (hal : Hal) (config : Modem) : M Unit :=
  M.bind (update_packet_type hal (PacketType.ofModem config)) (fun _ =>
    let data := match config with
      | Modem.Gfsk c => [c.preamble_length, c.sync_word_length, c.sync_word_match,
                         c.header_type, c.payload_length, c.crc_mode, c.whitening]
      | Modem.LoRa c => [c.preamble_length, c.header_type.toByte, c.payload_length,
                         c.crc_mode, c.invert_iq, 0, 0]
      | Modem.Ranging c => [c.preamble_length, c.header_type.toByte, c.payload_length,
                            c.crc_mode, c.invert_iq, 0, 0]
      | Modem.Flrc c => [c.preamble_length, c.sync_word_length, c.sync_word_match,
                         c.header_type, c.payload_length, c.crc_mode, c.whitening]
      | Modem.Ble c => [c.connection_state, c.crc_field, c.packet_type, c.whitening, 0, 0, 0]
      | Modem.None => [0, 0, 0, 0, 0, 0, 0]
    M.bind (write_cmd hal Commands.SetPacketParams data) (fun _ =>
      match config with
      | Modem.Flrc c =>
        match c.sync_word_value with
        | some v => set_syncword hal 1 v
        | none => M.pure ()
      | _ => M.pure ()))

/-- Sx128x::set_channel (src/src/lib.rs): reject frequencies outside
[FREQ_MIN, FREQ_MAX], write the frequency, switch packet type if required,
then write the per-family modulation parameter bytes with
SetModulationParams. -/
def set_channel (fts : Nat → Nat) (hal : Hal) (ch : Channel) : M Unit :=
  let freq := ch.frequency
  if freq < FREQ_MIN ∨ freq > FREQ_MAX then throwE Error.InvalidFrequency
  else
    M.bind (set_frequency fts hal freq) (fun _ =>
      M.bind (update_packet_type hal (PacketType.ofChannel ch)) (fun _ =>
        let data := match ch with
          | Channel.Gfsk c => [c.br_bw, c.mi, c.ms]
          | Channel.LoRa c => [c.sf, c.bw, c.cr]
          | Channel.Ranging c => [c.sf, c.bw, c.cr]
          | Channel.Flrc c => [c.br_bw, c.cr, c.ms]
          | Channel.Ble c => [c.br_bw, c.mi, c.ms]
        write_cmd hal Commands.SetModulationParams data))

/-- The channel/modem family-match validation inlined in Sx128x::configure
(src/src/lib.rs): only the LoRa/LoRa, Flrc/Flrc and Gfsk/Gfsk pairings are
accepted; every other combination is an InvalidConfiguration. -/
def famCheck (config : Config) : M Unit :=
  match config.modem, config.channel with
  | Modem.LoRa _, Channel.LoRa _ => M.pure ()
  | Modem.Flrc _, Channel.Flrc _ => M.pure ()
  | Modem.Gfsk _, Channel.Gfsk _ => M.pure ()
  | _, _ => throwE Error.InvalidConfiguration

/-- The opening of Sx128x::configure (src/src/lib.rs): force StandbyRC,
validate the family match, write the regulator mode and commit it to the
retained configuration. -/
def configure_prelude (hal : Hal) (config : Config) : M Unit :=
  M.bind (set_state hal State.StandbyRc) (fun _ =>
    M.bind (famCheck config) (fun _ =>
      M.bind (set_regulator_mode hal config.regulator_mode) (fun _ =>
        modifyDrv (fun d =>
          { d with config := { d.config with regulator_mode := config.regulator_mode } }))))

/-- Sx128x::configure (src/src/lib.rs): standby + validation + regulator
(configure_prelude), then channel, modem and power amplifier, each
followed by the commit of that step's value into the retained
configuration. -/
def configure (fts : Nat → Nat) (hal : Hal) (config : Config) : M Unit :=
  M.bind (configure_prelude hal config) (fun _ =>
    M.bind (set_channel fts hal config.channel) (fun _ =>
      M.bind (modifyDrv (fun d =>
          { d with config := { d.config with channel := config.channel } })) (fun _ =>
        M.bind (configure_modem hal config.modem) (fun _ =>
          M.bind (modifyDrv (fun d =>
              { d with config := { d.config with modem := config.modem } })) (fun _ =>
            M.bind (set_power_ramp hal config.pa_config.power config.pa_config.ramp_time)
              (fun _ =>
                modifyDrv (fun d =>
                  { d with config := { d.config with pa_config := config.pa_config } })))))))

/-- Sx128x::get_interrupts (src/src/lib.rs): read the two IRQ status
bytes, combine big-endian, and when clearing is requested and any flag is
set write ClearIrqStatus with the same bytes. -/
def get_interrupts (hal : Hal) (clear : Bool) : M Nat :=
  M.bind (read_cmd hal Commands.GetIrqStatus 2) (fun data =>
    let d0 := data.getD 0 0
    let d1 := data.getD 1 0
    let irq := d0 <<< 8 ||| d1
    if clear ∧ irq ≠ 0 then
      M.bind (write_cmd hal Commands.ClearIrqStatus [d0, d1]) (fun _ => M.pure irq)
    else M.pure irq)

/-- Sx128x::start_receive (src/src/lib.rs): reset buffer base addresses,
re-push the retained modem parameters, set the Responder ranging role when
in Ranging mode, arm the RX IRQ mask, issue SetRx with the timeout bytes,
and read back the state. -/
def start_receive (hal : Hal) : M Unit :=
  M.bind (set_buff_base_addr hal 0 0) (fun _ =>
    M.bind getDrv (fun st0 =>
      M.bind (configure_modem hal st0.config.modem) (fun _ =>
        M.bind getDrv (fun st1 =>
          M.bind (if st1.packet_type = PacketType.Ranging then
              write_cmd hal Commands.SetRangingRole [RangingRole.Responder]
            else M.pure ()) (fun _ =>
            M.bind getDrv (fun st2 =>
              let tconf := [st2.config.rf_timeout.step % 256,
                            (st2.config.rf_timeout.count >>> 8) &&& 0xFF,
                            st2.config.rf_timeout.count &&& 0xFF]
              M.bind (set_irq_mask hal
                  (Irq.RX_DONE ||| Irq.CRC_ERROR ||| Irq.RX_TX_TIMEOUT
                    ||| Irq.SYNCWORD_VALID ||| Irq.SYNCWORD_ERROR
                    ||| Irq.HEADER_VALID ||| Irq.HEADER_ERROR
                    ||| Irq.PREAMBLE_DETECTED)) (fun _ =>
                M.bind (write_cmd hal Commands.SetRx tconf) (fun _ =>
                  M.bind (get_state hal) (fun _ => M.pure ())))))))))

/-- Sx128x::check_receive (src/src/lib.rs): read-and-clear the IRQ flags,
classify with priority CRC_ERROR over RX_TX_TIMEOUT over RX_DONE, and on
an error outcome with restart set re-issue start_receive and report
Ok(false) instead. -/
def check_receive (hal : Hal) (restart : Bool) : M Bool :=
  M.bind (get_interrupts hal true) (fun irq =>
    let res : Except Error Bool :=
      if Irq.contains irq Irq.CRC_ERROR then Except.error Error.InvalidCrc
      else if Irq.contains irq Irq.RX_TX_TIMEOUT then Except.error Error.Timeout
      else if Irq.contains irq Irq.RX_DONE then Except.ok true
      else Except.ok false
    match restart, res with
    | true, Except.error _ =>
      M.bind (start_receive hal) (fun _ => M.pure false)
    | _, r => fun s => (r, s, []))

/-- Sx128x::get_rx_buffer_status (src/src/lib.rs): read the two
GetRxBufferStatus bytes; the length is the payload-length register for
implicit-header LoRa, the reported byte plus 2 (u8 arithmetic) for BLE,
and the reported byte otherwise; the pointer is the second byte. -/
def get_rx_buffer_status (hal : Hal) : M (Nat × Nat) :=
  M.bind (read_cmd hal Commands.GetRxBufferStatus 2) (fun status =>
    let s0 := status.getD 0 0
    let s1 := status.getD 1 0
    M.bind getDrv (fun st =>
      M.bind (match st.config.modem with
        | Modem.LoRa c =>
          match c.header_type with
          | LoRaHeader.Implicit => read_reg hal (Registers.addr Registers.LrPayloadLength)
          | LoRaHeader.Explicit => M.pure s0
        | Modem.Ble _ => M.pure ((s0 + 2) % 256)
        | _ => M.pure s0) (fun len =>
        M.pure (s1, len))))

/-- Sx128x::get_packet_info (src/src/lib.rs): read the five
GetPacketStatus bytes, fill the flag fields, then decode RSSI (and SNR for
LoRa/Ranging) according to the active packet type; with no packet type
selected the source panics (unimplemented!), modelled as Error.Panic.
Divisions are Rust i16 divisions (truncation toward zero), hence Int.div. -/
def get_packet_info (hal : Hal) (info : PacketInfo) : M PacketInfo :=
  M.bind (read_cmd hal Commands.GetPacketStatus 5) (fun data =>
    let d0 : Int := data.getD 0 0
    let d1 : Int := data.getD 1 0
    let info1 := { info with
      packet_status := data.getD 2 0
      tx_rx_status := data.getD 3 0
      sync_addr_status := (data.getD 4 0) &&& 0b0111 }
    M.bind getDrv (fun st =>
      match st.packet_type with
      | PacketType.Gfsk =>
        M.pure { info1 with rssi := Int.tdiv (-d1) 2 }
      | PacketType.Flrc =>
        M.pure { info1 with rssi := Int.tdiv (-d1) 2 }
      | PacketType.Ble =>
        M.pure { info1 with rssi := Int.tdiv (-d1) 2 }
      | PacketType.LoRa =>
        M.pure { info1 with
          rssi := Int.tdiv (-d0) 2,
          snr := some (if d1 < 128 then Int.tdiv d1 4 else Int.tdiv (d1 - 256) 4) }
      | PacketType.Ranging =>
        M.pure { info1 with
          rssi := Int.tdiv (-d0) 2,
          snr := some (if d1 < 128 then Int.tdiv d1 4 else Int.tdiv (d1 - 256) 4) }
      | PacketType.None => throwE Error.Panic))

/-- The driver state produced by Sx128x::build (src/src/lib.rs): default
configuration and no packet type selected. -/
def buildSt : Sx128xState :=
  { config := Config.default, packet_type := PacketType.None }

/-- Sx128x::new (src/src/lib.rs): reset the IC, read the firmware version,
fail with NoComms on 0xFFFF/0x0000, fail with InvalidDevice on any other
non-0xA9B5 value unless skip_version_check is set (otherwise only a
warning is logged), then configure and force StandbyRC. -/
def new (fts : Nat → Nat) (hal : Hal) (config : Config) : M Unit :=
  M.bind (hal_reset hal) (fun _ =>
    M.bind (firmware_version hal) (fun fw =>
      M.bind (if fw = 0xFFFF ∨ fw = 0x0000 then throwE Error.NoComms else M.pure ())
        (fun _ =>
          M.bind (if fw ≠ 0xA9B5 ∧ config.skip_version_check = false then
              throwE (Error.InvalidDevice fw)
            else M.pure ()) (fun _ =>
            M.bind (configure fts hal config) (fun _ =>
              set_state hal State.StandbyRc)))))

/-- Does this bus op write the given command opcode? -/
def isCmdWrite (c : Commands) : BusOp → Bool
  | BusOp.writeCmd c2 _ => c2 == c
  | _ => false

/-- Number of writes of the given command opcode in a trace. -/
def countCmd (c : Commands) (t : List BusOp) : Nat := t.countP (isCmdWrite c)

/-- Identity step conversion, used to instantiate the parametric
freq_to_steps at concrete inputs. -/
def ftsId : Nat → Nat := fun f => f

/-- Oracle for which every transaction succeeds with an empty response. -/
def halOk : Hal := fun _ _ => HalResult.ok []

/-- Oracle failing exactly the writes of one command opcode. -/
def halFailOn (c : Commands) : Hal := fun _ op =>
  match op with
  | BusOp.writeCmd c2 _ =>
    if c2 == c then HalResult.err (Error.Comms 0) else HalResult.ok []
  | _ => HalResult.ok []

/-- Oracle answering the IRQ status read with the two given bytes and the
GetStatus read with a byte parsing to StandbyRc. -/
def halIrqResp (b0 b1 : Nat) : Hal := fun _ op =>
  match op with
  | BusOp.readCmd Commands.GetIrqStatus _ => HalResult.ok [b0, b1]
  | BusOp.readCmd Commands.GetStatus _ => HalResult.ok [68]
  | _ => HalResult.ok []

/-- Oracle answering the firmware version register read with the two given
bytes. -/
def halFwResp (b0 b1 : Nat) : Hal := fun _ op =>
  match op with
  | BusOp.readRegs a 2 =>
    if a == Registers.addr Registers.LrFirmwareVersionMsb then HalResult.ok [b0, b1]
    else HalResult.ok []
  | _ => HalResult.ok []

/-- Oracle answering the GetRxBufferStatus read with the two given bytes
and any single-register read with 77. -/
def halRxStat (b0 b1 : Nat) : Hal := fun _ op =>
  match op with
  | BusOp.readCmd Commands.GetRxBufferStatus _ => HalResult.ok [b0, b1]
  | BusOp.readRegs _ 1 => HalResult.ok [77]
  | _ => HalResult.ok []

/-- Oracle answering the GetPacketStatus read with [10, d1, 3, 4, 5]. -/
def halPktStat (d1 : Nat) : Hal := fun _ op =>
  match op with
  | BusOp.readCmd Commands.GetPacketStatus _ => HalResult.ok [10, d1, 3, 4, 5]
  | _ => HalResult.ok []

/-- Concrete GFSK modem parameters for counterexamples and witnesses. -/
def gfskPacketSample : GfskPacketConfig :=
  { preamble_length := 1, sync_word_length := 2, sync_word_match := 3,
    header_type := 4, payload_length := 5, crc_mode := 6, whitening := 7 }

/-- Concrete LoRa modem parameters (the defaults). -/
def loraPacketSample : LoRaPacketConfig :=
  { preamble_length := 12, header_type := LoRaHeader.Explicit,
    payload_length := 255, crc_mode := 0x20, invert_iq := 0x40 }

/-- Concrete LoRa modem parameters with an implicit header. -/
def loraImplicitSample : LoRaPacketConfig :=
  { preamble_length := 12, header_type := LoRaHeader.Implicit,
    payload_length := 16, crc_mode := 0x20, invert_iq := 0x40 }

/-- Concrete BLE modem parameters. -/
def blePacketSample : BlePacketConfig :=
  { connection_state := 0, crc_field := 1, packet_type := 2, whitening := 3 }

/-- Concrete LoRa/Ranging channel parameters (the defaults). -/
def loraChannelSample : LoRaChannel :=
  { freq := 2440000000, sf := 0x70, bw := 0x26, cr := 0x01 }

/-- Concrete BLE channel parameters. -/
def bleChannelSample : BleChannel :=
  { freq := 2440000000, br_bw := 1, mi := 2, ms := 3 }

/-- A configuration whose channel (LoRa) and modem (GFSK) families
mismatch. -/
def cfgMismatch : Config := { Config.default with modem := Modem.Gfsk gfskPacketSample }

/-- A valid LoRa/LoRa configuration requesting pa power 5, ramp byte 2. -/
def cfgPa5 : Config := { Config.default with pa_config := { power := 5, ramp_time := 2 } }

/-- The default configuration with the version check skipped. -/
def cfgSkip : Config := { Config.default with skip_version_check := true }

/-- A configuration with both modem and channel in the BLE family. -/
def cfgBle : Config :=
  { Config.default with
    modem := Modem.Ble blePacketSample
    channel := Channel.Ble bleChannelSample }

/-- A configuration with both modem and channel in the Ranging family. -/
def cfgRanging : Config :=
  { Config.default with
    modem := Modem.Ranging loraPacketSample
    channel := Channel.Ranging loraChannelSample }

/-- The machine state at construction: build's driver state, no bus
transactions issued yet. -/
def s0 : DSt := { drv := buildSt, calls := 0 }

/-- A machine state whose driver is in LoRa packet mode with the default
configuration. -/
def sLora : DSt :=
  { drv := { config := Config.default, packet_type := PacketType.LoRa }, calls := 0 }

/-- A machine state whose driver is in GFSK packet mode. -/
def sGfsk : DSt :=
  { drv := { config := Config.default, packet_type := PacketType.Gfsk }, calls := 0 }

/-- A machine state configured for BLE. -/
def sBle : DSt :=
  { drv :=
      { config := { Config.default with modem := Modem.Ble blePacketSample }
        packet_type := PacketType.Ble }
    calls := 0 }

/-- A machine state configured for implicit-header LoRa. -/
def sLoraImplicit : DSt :=
  { drv :=
      { config := { Config.default with modem := Modem.LoRa loraImplicitSample }
        packet_type := PacketType.LoRa }
    calls := 0 }

/-- An empty packet info record. -/
def info0 : PacketInfo :=
  { rssi := 0, snr := none, packet_status := 0, tx_rx_status := 0, sync_addr_status := 0 }

/-- Sequencing a successful run with its continuation. -/
theorem M.bind_ok {α β : Type} {x : M α} {f : α → M β} {s s1 s2 : DSt} {a : α}
    {t1 t2 : List BusOp} {r : Except Error β}
    (h1 : x s = (Except.ok a, s1, t1)) (h2 : f a s1 = (r, s2, t2)) :
    M.bind x f s = (r, s2, t1 ++ t2) := by
  simp [M.bind, h1, h2]

/-- Sequencing a failed run short-circuits. -/
theorem M.bind_err {α β : Type} {x : M α} {f : α → M β} {s s1 : DSt} {e : Error}
    {t1 : List BusOp} (h1 : x s = (Except.error e, s1, t1)) :
    M.bind x f s = (Except.error e, s1, t1) := by
  simp [M.bind, h1]

/-- A successful bind decomposes into successful parts. -/
theorem M.bind_ok_inv {α β : Type} {x : M α} {f : α → M β} {s s2 : DSt} {b : β}
    {t : List BusOp} (h : M.bind x f s = (Except.ok b, s2, t)) :
    ∃ a s1 t1 t2, x s = (Except.ok a, s1, t1) ∧ f a s1 = (Except.ok b, s2, t2) ∧
      t = t1 ++ t2 := by
  rcases hx : x s with ⟨r1, s1, t1⟩
  cases r1 with
  | ok a =>
    rcases hf : f a s1 with ⟨r2, s2x, t2⟩
    rw [M.bind_ok hx hf] at h
    simp only [Prod.mk.injEq] at h
    obtain ⟨h1, h2, h3⟩ := h
    subst h1
    subst h2
    refine ⟨a, s1, t1, t2, ?_, hf, h3.symm⟩
    rfl
  | error e =>
    rw [M.bind_err hx] at h
    simp at h

/-- Closed form of a command write. -/
theorem write_cmd_run (hal : Hal) (c : Commands) (d : List Nat) (s : DSt) :
    write_cmd hal c d s =
      (writeResult (hal s.calls (BusOp.writeCmd c d)),
       { s with calls := s.calls + 1 }, [BusOp.writeCmd c d]) := by
  cases h : hal s.calls (BusOp.writeCmd c d) <;>
    simp [write_cmd, halOp, M.bind, M.pure, writeResult, readResult, h]

/-- Closed form of a register write. -/
theorem write_regs_run (hal : Hal) (addr : Nat) (d : List Nat) (s : DSt) :
    write_regs hal addr d s =
      (writeResult (hal s.calls (BusOp.writeRegs addr d)),
       { s with calls := s.calls + 1 }, [BusOp.writeRegs addr d]) := by
  cases h : hal s.calls (BusOp.writeRegs addr d) <;>
    simp [write_regs, halOp, M.bind, M.pure, writeResult, readResult, h]

/-- Closed form of a command read. -/
theorem read_cmd_run (hal : Hal) (c : Commands) (len : Nat) (s : DSt) :
    read_cmd hal c len s =
      (readResult (hal s.calls (BusOp.readCmd c len)),
       { s with calls := s.calls + 1 }, [BusOp.readCmd c len]) := by
  rfl

/-- Closed form of a single-register read. -/
theorem read_reg_run (hal : Hal) (addr : Nat) (s : DSt) :
    read_reg hal addr s =
      ((match hal s.calls (BusOp.readRegs addr 1) with
        | HalResult.ok bs => Except.ok ((bs.map (fun b => b % 256)).getD 0 0)
        | HalResult.err e => Except.error e),
       { s with calls := s.calls + 1 }, [BusOp.readRegs addr 1]) := by
  cases h : hal s.calls (BusOp.readRegs addr 1) <;>
    simp [read_reg, halOp, M.bind, M.pure, readResult, h]

/-- Closed form of a reset transaction. -/
theorem hal_reset_run (hal : Hal) (s : DSt) :
    hal_reset hal s =
      (writeResult (hal s.calls BusOp.reset), { s with calls := s.calls + 1 },
       [BusOp.reset]) := by
  cases h : hal s.calls BusOp.reset <;>
    simp [hal_reset, halOp, M.bind, M.pure, writeResult, readResult, h]

/-- Binding a driver state read just passes the state. -/
theorem bind_getDrv {β : Type} (f : Sx128xState → M β) (s : DSt) :
    M.bind getDrv f s = f s.drv s := by
  rcases h : f s.drv s with ⟨r, s2, t2⟩
  simp [M.bind, getDrv, h]

/-- A driver state update is pure. -/
theorem modifyDrv_run (f : Sx128xState → Sx128xState) (s : DSt) :
    modifyDrv f s = (Except.ok (), { s with drv := f s.drv }, []) := rfl

/-- A projection of the machine state preserved by both parts of a bind is
preserved by the bind. -/
theorem M.bind_pres {α β γ : Type} (P : DSt → γ) {x : M α} {f : α → M β}
    (hx : ∀ s, P ((x s).2.1) = P s) (hf : ∀ a s, P ((f a s).2.1) = P s) (s : DSt) :
    P ((M.bind x f s).2.1) = P s := by
  rcases hx2 : x s with ⟨r, s1, t1⟩
  cases r with
  | error e =>
    rw [M.bind_err hx2]
    have h1 := hx s
    rw [hx2] at h1
    exact h1
  | ok a =>
    rcases hf2 : f a s1 with ⟨r2, s2, t2⟩
    rw [M.bind_ok hx2 hf2]
    have h1 := hx s
    rw [hx2] at h1
    have h2 := hf a s1
    rw [hf2] at h2
    exact h2.trans h1

/-- The machine state after a command write only advances the counter. -/
theorem write_cmd_state (hal : Hal) (c : Commands) (d : List Nat) (s : DSt) :
    (write_cmd hal c d s).2.1 = { s with calls := s.calls + 1 } := by
  rw [write_cmd_run]

/-- The machine state after a register write only advances the counter. -/
theorem write_regs_state (hal : Hal) (addr : Nat) (d : List Nat) (s : DSt) :
    (write_regs hal addr d s).2.1 = { s with calls := s.calls + 1 } := by
  rw [write_regs_run]

/-- The machine state after a single-register read only advances the
counter. -/
theorem read_reg_state (hal : Hal) (addr : Nat) (s : DSt) :
    (read_reg hal addr s).2.1 = { s with calls := s.calls + 1 } := by
  rw [read_reg_run]

/-- The packet-type switch when the mirror already matches: no-op. -/
theorem update_packet_type_eq {hal : Hal} {pt : PacketType} {s : DSt}
    (h : s.drv.packet_type = pt) :
    update_packet_type hal pt s = (Except.ok (), s, []) := by
  simp [update_packet_type, bind_getDrv, h, M.pure]

/-- The packet-type switch when the mirror differs: one SetPacketType
write, and the mirror is updated exactly on its success. -/
theorem update_packet_type_ne {hal : Hal} {pt : PacketType} {s : DSt}
    (h : ¬ s.drv.packet_type = pt) :
    update_packet_type hal pt s =
      (match hal s.calls (BusOp.writeCmd Commands.SetPacketType [pt.toByte]) with
       | HalResult.ok _ =>
         (Except.ok (), ⟨{ s.drv with packet_type := pt }, s.calls + 1⟩,
          [BusOp.writeCmd Commands.SetPacketType [pt.toByte]])
       | HalResult.err e =>
         (Except.error e, ⟨s.drv, s.calls + 1⟩,
          [BusOp.writeCmd Commands.SetPacketType [pt.toByte]])) := by
  unfold update_packet_type
  rw [bind_getDrv]
  simp only [if_neg h]
  cases hh : hal s.calls (BusOp.writeCmd Commands.SetPacketType [pt.toByte]) <;>
    simp [write_cmd, halOp, M.bind, M.pure, modifyDrv, readResult, hh]

/-- The packet-type switch never touches the retained configuration. -/
theorem update_packet_type_config (hal : Hal) (pt : PacketType) (s : DSt) :
    ((update_packet_type hal pt s).2.1).drv.config = s.drv.config := by
  by_cases h : s.drv.packet_type = pt
  · rw [update_packet_type_eq h]
  · rw [update_packet_type_ne h]
    cases hh : hal s.calls (BusOp.writeCmd Commands.SetPacketType [pt.toByte]) <;>
      simp [hh]

/-- set_syncword never touches the driver state. -/
theorem set_syncword_drv (hal : Hal) (i : Nat) (v : List Nat) (s : DSt) :
    ((set_syncword hal i v s).2.1).drv = s.drv := by
  unfold set_syncword
  rw [bind_getDrv]
  cases hsw : syncWordEntry s.drv.packet_type i with
  | none => simp [hsw, throwE]
  | some al =>
    rcases al with ⟨addr, len⟩
    simp only [hsw]
    by_cases hl : v.length ≠ len
    · simp [hl, throwE]
    · simp only [if_neg hl]
      refine M.bind_pres (fun st => st.drv) ?_ ?_ s
      · intro s1
        rw [write_regs_state]
      · intro a s1
        cases hpt : s.drv.packet_type with
        | Flrc =>
          refine M.bind_pres (fun st => st.drv) ?_ ?_ s1
          · intro s2
            rw [read_reg_state]
          · intro r s2
            rw [show write_reg hal (Registers.addr Registers.LrSyncWordTolerance)
              (r &&& 0xF0) s2 = write_regs hal (Registers.addr Registers.LrSyncWordTolerance)
              [r &&& 0xF0] s2 from rfl, write_regs_state]
        | None => rfl
        | Gfsk => rfl
        | LoRa => rfl
        | Ble => rfl
        | Ranging => rfl

/-- configure_modem never touches the retained configuration (it may only
update the mirrored packet type). -/
theorem configure_modem_config (hal : Hal) (m : Modem) (s : DSt) :
    ((configure_modem hal m s).2.1).drv.config = s.drv.config := by
  unfold configure_modem
  refine M.bind_pres (fun st => st.drv.config) ?_ ?_ s
  · intro s1
    exact update_packet_type_config hal _ s1
  · intro a s1
    refine M.bind_pres (fun st => st.drv.config) ?_ ?_ s1
    · intro s2
      rw [write_cmd_state]
    · intro a2 s2
      cases m with
      | Flrc c =>
        cases hv : c.sync_word_value with
        | none => simp [hv, M.pure]
        | some v =>
          simp only [hv]
          exact congrArg Sx128xState.config (set_syncword_drv hal 1 v s2)
      | Gfsk c => simp [M.pure]
      | LoRa c => simp [M.pure]
      | Ranging c => simp [M.pure]
      | Ble c => simp [M.pure]
      | None => simp [M.pure]

/-- set_channel never touches the retained configuration (it may only
update the mirrored packet type). -/
theorem set_channel_config (fts : Nat → Nat) (hal : Hal) (ch : Channel) (s : DSt) :
    ((set_channel fts hal ch s).2.1).drv.config = s.drv.config := by
  by_cases hf : ch.frequency < FREQ_MIN ∨ ch.frequency > FREQ_MAX
  · simp [set_channel, hf, throwE]
  · simp only [set_channel, hf, if_false]
    refine M.bind_pres (fun st => st.drv.config) ?_ ?_ s
    · intro s1
      rw [show set_frequency fts hal ch.frequency s1 =
        write_cmd hal Commands.SetRfFrequency
          [(fts ch.frequency >>> 16) % 256, (fts ch.frequency >>> 8) % 256,
           fts ch.frequency % 256] s1 from rfl, write_cmd_state]
    · intro a s1
      refine M.bind_pres (fun st => st.drv.config) ?_ ?_ s1
      · intro s2
        exact update_packet_type_config hal _ s2
      · intro a2 s2
        cases ch <;> rw [write_cmd_state]

/-- The family check either accepts (same family, no effect) or rejects
with InvalidConfiguration (no effect). -/
theorem famCheck_cases (cfg : Config) (s : DSt) :
    (famCheck cfg s = (Except.ok (), s, []) ∧
      PacketType.ofModem cfg.modem = PacketType.ofChannel cfg.channel) ∨
    famCheck cfg s = (Except.error Error.InvalidConfiguration, s, []) := by
  cases hm : cfg.modem <;> cases hc : cfg.channel <;>
    simp [famCheck, hm, hc, M.pure, throwE, PacketType.ofModem, PacketType.ofChannel]

/-- Closed form of forcing StandbyRc. -/
theorem set_state_standby_run (hal : Hal) (s : DSt) :
    set_state hal State.StandbyRc s =
      (writeResult (hal s.calls (BusOp.writeCmd Commands.SetStandby [0])),
       { s with calls := s.calls + 1 }, [BusOp.writeCmd Commands.SetStandby [0]]) :=
  write_cmd_run hal Commands.SetStandby [0] s

/-- When the family check rejects a configuration, configure fails with
InvalidConfiguration right after the single forced-standby write. -/
theorem configure_reject (fts : Nat → Nat) (hal : Hal) (cfg : Config) (s : DSt)
    (bs : List Nat)
    (hfam : ∀ s' : DSt, famCheck cfg s' = (Except.error Error.InvalidConfiguration, s', []))
    (hstb : hal s.calls (BusOp.writeCmd Commands.SetStandby [0]) = HalResult.ok bs) :
    configure fts hal cfg s =
      (Except.error Error.InvalidConfiguration, ⟨s.drv, s.calls + 1⟩,
       [BusOp.writeCmd Commands.SetStandby [0]]) := by
  have hset : set_state hal State.StandbyRc s =
      (Except.ok (), ⟨s.drv, s.calls + 1⟩, [BusOp.writeCmd Commands.SetStandby [0]]) := by
    rw [set_state_standby_run, hstb]
    rfl
  have hpre : configure_prelude hal cfg s =
      (Except.error Error.InvalidConfiguration, ⟨s.drv, s.calls + 1⟩,
       [BusOp.writeCmd Commands.SetStandby [0]]) := by
    unfold configure_prelude
    rw [M.bind_ok hset (M.bind_err (hfam ⟨s.drv, s.calls + 1⟩))]
    simp
  unfold configure
  rw [M.bind_err hpre]

/-- Components of an equality of run triples. -/
theorem trip_inj {A B C : Type} {a a' : A} {b b' : B} {c c' : C}
    (h : (a, b, c) = (a', b', c')) : a = a' ∧ b = b' ∧ c = c' :=
  ⟨congrArg Prod.fst h, congrArg (fun x => x.2.1) h, congrArg (fun x => x.2.2) h⟩

/-- Closed form of the power step: the retained pa_config is set to the
clamped power and the ramp before the SetTxParams write is issued, and the
call's outcome is exactly the write's outcome. -/
theorem set_power_ramp_run (hal : Hal) (p : Int) (ramp : Nat) (s : DSt) :
    set_power_ramp hal p ramp s =
      (writeResult (hal s.calls (BusOp.writeCmd Commands.SetTxParams
         [(min (max p (-18)) 13 + 18).toNat, ramp])),
       ⟨{ s.drv with config := { s.drv.config with
            pa_config := { power := min (max p (-18)) 13, ramp_time := ramp } } },
        s.calls + 1⟩,
       [BusOp.writeCmd Commands.SetTxParams [(min (max p (-18)) 13 + 18).toNat, ramp]]) := by
  unfold set_power_ramp
  rw [M.bind_ok (modifyDrv_run _ s) (write_cmd_run hal _ _ _)]
  simp

/-- A failed prelude (standby write, family check or regulator write)
leaves the driver state untouched. -/
theorem configure_prelude_err {hal : Hal} {cfg : Config} {s s1 : DSt} {e : Error}
    {t1 : List BusOp}
    (h : configure_prelude hal cfg s = (Except.error e, s1, t1)) :
    s1.drv = s.drv := by
  unfold configure_prelude at h
  cases hh : hal s.calls (BusOp.writeCmd Commands.SetStandby [0]) with
  | err e0 =>
    have hset : set_state hal State.StandbyRc s =
        (Except.error e0, { s with calls := s.calls + 1 },
         [BusOp.writeCmd Commands.SetStandby [0]]) := by
      rw [set_state_standby_run, hh]
      rfl
    rw [M.bind_err hset] at h
    obtain ⟨-, h2, -⟩ := trip_inj h
    rw [← h2]
  | ok bs =>
    have hset : set_state hal State.StandbyRc s =
        (Except.ok (), { s with calls := s.calls + 1 },
         [BusOp.writeCmd Commands.SetStandby [0]]) := by
      rw [set_state_standby_run, hh]
      rfl
    rcases famCheck_cases cfg { s with calls := s.calls + 1 } with ⟨hfc, hfam⟩ | hfc
    · cases hr : hal (s.calls + 1)
          (BusOp.writeCmd Commands.SetRegulatorMode [cfg.regulator_mode]) with
      | err e1 =>
        have hreg : set_regulator_mode hal cfg.regulator_mode
            { s with calls := s.calls + 1 } =
            (Except.error e1, { s with calls := s.calls + 2 },
             [BusOp.writeCmd Commands.SetRegulatorMode [cfg.regulator_mode]]) := by
          rw [show set_regulator_mode hal cfg.regulator_mode { s with calls := s.calls + 1 } =
            write_cmd hal Commands.SetRegulatorMode [cfg.regulator_mode]
              { s with calls := s.calls + 1 } from rfl, write_cmd_run]
          simp [hr, writeResult]
        rw [M.bind_ok hset (M.bind_ok hfc (M.bind_err hreg))] at h
        obtain ⟨-, h2, -⟩ := trip_inj h
        rw [← h2]
      | ok bs2 =>
        have hreg : set_regulator_mode hal cfg.regulator_mode
            { s with calls := s.calls + 1 } =
            (Except.ok (), { s with calls := s.calls + 2 },
             [BusOp.writeCmd Commands.SetRegulatorMode [cfg.regulator_mode]]) := by
          rw [show set_regulator_mode hal cfg.regulator_mode { s with calls := s.calls + 1 } =
            write_cmd hal Commands.SetRegulatorMode [cfg.regulator_mode]
              { s with calls := s.calls + 1 } from rfl, write_cmd_run]
          simp [hr, writeResult]
        rw [M.bind_ok hset (M.bind_ok hfc (M.bind_ok hreg
          (modifyDrv_run _ { s with calls := s.calls + 2 })))] at h
        obtain ⟨h1, -, -⟩ := trip_inj h
        simp at h1
    · rw [M.bind_ok hset (M.bind_err hfc)] at h
      obtain ⟨-, h2, -⟩ := trip_inj h
      rw [← h2]

/-- Closed form of a successful prelude: the family tags agree, exactly
the standby and regulator writes are issued, and only the retained
regulator mode is updated. -/
theorem configure_prelude_ok {hal : Hal} {cfg : Config} {s s1 : DSt} {t1 : List BusOp}
    (h : configure_prelude hal cfg s = (Except.ok (), s1, t1)) :
    PacketType.ofModem cfg.modem = PacketType.ofChannel cfg.channel ∧
    s1 = ⟨⟨{ s.drv.config with regulator_mode := cfg.regulator_mode },
           s.drv.packet_type⟩, s.calls + 2⟩ ∧
    t1 = [BusOp.writeCmd Commands.SetStandby [0],
          BusOp.writeCmd Commands.SetRegulatorMode [cfg.regulator_mode]] := by
  unfold configure_prelude at h
  cases hh : hal s.calls (BusOp.writeCmd Commands.SetStandby [0]) with
  | err e0 =>
    have hset : set_state hal State.StandbyRc s =
        (Except.error e0, { s with calls := s.calls + 1 },
         [BusOp.writeCmd Commands.SetStandby [0]]) := by
      rw [set_state_standby_run, hh]
      rfl
    rw [M.bind_err hset] at h
    obtain ⟨h1, -, -⟩ := trip_inj h
    simp at h1
  | ok bs =>
    have hset : set_state hal State.StandbyRc s =
        (Except.ok (), { s with calls := s.calls + 1 },
         [BusOp.writeCmd Commands.SetStandby [0]]) := by
      rw [set_state_standby_run, hh]
      rfl
    rcases famCheck_cases cfg { s with calls := s.calls + 1 } with ⟨hfc, hfam⟩ | hfc
    · cases hr : hal (s.calls + 1)
          (BusOp.writeCmd Commands.SetRegulatorMode [cfg.regulator_mode]) with
      | err e1 =>
        have hreg : set_regulator_mode hal cfg.regulator_mode
            { s with calls := s.calls + 1 } =
            (Except.error e1, { s with calls := s.calls + 2 },
             [BusOp.writeCmd Commands.SetRegulatorMode [cfg.regulator_mode]]) := by
          rw [show set_regulator_mode hal cfg.regulator_mode { s with calls := s.calls + 1 } =
            write_cmd hal Commands.SetRegulatorMode [cfg.regulator_mode]
              { s with calls := s.calls + 1 } from rfl, write_cmd_run]
          simp [hr, writeResult]
        rw [M.bind_ok hset (M.bind_ok hfc (M.bind_err hreg))] at h
        obtain ⟨h1, -, -⟩ := trip_inj h
        simp at h1
      | ok bs2 =>
        have hreg : set_regulator_mode hal cfg.regulator_mode
            { s with calls := s.calls + 1 } =
            (Except.ok (), { s with calls := s.calls + 2 },
             [BusOp.writeCmd Commands.SetRegulatorMode [cfg.regulator_mode]]) := by
          rw [show set_regulator_mode hal cfg.regulator_mode { s with calls := s.calls + 1 } =
            write_cmd hal Commands.SetRegulatorMode [cfg.regulator_mode]
              { s with calls := s.calls + 1 } from rfl, write_cmd_run]
          simp [hr, writeResult]
        rw [M.bind_ok hset (M.bind_ok hfc (M.bind_ok hreg
          (modifyDrv_run _ { s with calls := s.calls + 2 })))] at h
        obtain ⟨-, h2, h3⟩ := trip_inj h
        refine ⟨hfam, ?_, ?_⟩
        · rw [← h2]
        · rw [← h3]
          simp
    · rw [M.bind_ok hset (M.bind_err hfc)] at h
      obtain ⟨h1, -, -⟩ := trip_inj h
      simp at h1

/-- C1 counterexample: configure with a LoRa channel and a GFSK modem (an
all-succeeding bus) does return InvalidConfiguration, but its bus trace is
not empty: the forced-standby command write reaches the Hal before the
validation failure.  This refutes the claim that zero bus writes are
issued. -/
theorem c1_counterexample :
    (configure ftsId halOk cfgMismatch s0).1 = Except.error Error.InvalidConfiguration ∧
    (configure ftsId halOk cfgMismatch s0).2.2 ≠ [] ∧
    (configure ftsId halOk cfgMismatch s0).2.2 =
      [BusOp.writeCmd Commands.SetStandby [0]] := by
  decide

/-- C1 amended: for every configuration whose modem and channel families
differ, once the forced-standby write succeeds, configure returns
InvalidConfiguration having issued exactly one bus transaction -- the
SetStandby command -- and no regulator, channel, modem, power, register or
buffer write; the driver state is unchanged. -/
theorem c1_amended (fts : Nat → Nat) (hal : Hal) (cfg : Config) (s : DSt) (bs : List Nat)
    (hmis : PacketType.ofModem cfg.modem ≠ PacketType.ofChannel cfg.channel)
    (hstb : hal s.calls (BusOp.writeCmd Commands.SetStandby [0]) = HalResult.ok bs) :
    configure fts hal cfg s =
      (Except.error Error.InvalidConfiguration, ⟨s.drv, s.calls + 1⟩,
       [BusOp.writeCmd Commands.SetStandby [0]]) := by
  refine configure_reject fts hal cfg s bs ?_ hstb
  intro s'
  rcases famCheck_cases cfg s' with ⟨h1, h2⟩ | h
  · exact absurd h2 hmis
  · exact h

/-- C1 amended witness at the concrete mismatching configuration. -/
theorem c1_amended_witness :
    configure ftsId halOk cfgMismatch s0 =
      (Except.error Error.InvalidConfiguration, ⟨buildSt, 1⟩,
       [BusOp.writeCmd Commands.SetStandby [0]]) :=
  c1_amended ftsId halOk cfgMismatch s0 [] (by decide) rfl

/-- C10: a configuration whose modem and channel are both BLE, or both
Ranging, is rejected with InvalidConfiguration even though the family tags
match: the family check accepts only the LoRa/LoRa, Flrc/Flrc and
Gfsk/Gfsk pairings. -/
theorem c10_theorem (fts : Nat → Nat) (hal : Hal) (cfg : Config) (s : DSt) (bs : List Nat)
    (hfam : (∃ mb cb, cfg.modem = Modem.Ble mb ∧ cfg.channel = Channel.Ble cb) ∨
            (∃ mr cr, cfg.modem = Modem.Ranging mr ∧ cfg.channel = Channel.Ranging cr))
    (hstb : hal s.calls (BusOp.writeCmd Commands.SetStandby [0]) = HalResult.ok bs) :
    configure fts hal cfg s =
      (Except.error Error.InvalidConfiguration, ⟨s.drv, s.calls + 1⟩,
       [BusOp.writeCmd Commands.SetStandby [0]]) := by
  refine configure_reject fts hal cfg s bs ?_ hstb
  intro s'
  rcases hfam with ⟨mb, cb, hm, hc⟩ | ⟨mr, cr, hm, hc⟩ <;>
    simp [famCheck, hm, hc, throwE]

/-- C2 counterexample: with a bus failing exactly the SetTxParams write,
configure fails, yet the retained pa_config has already been changed to
the new (clamped) power/ramp values -- refuting the claim that a step
whose bus write fails leaves that step's retained value unchanged. -/
theorem c2_counterexample :
    (configure ftsId (halFailOn Commands.SetTxParams) cfgPa5 s0).1 =
      Except.error (Error.Comms 0) ∧
    ((configure ftsId (halFailOn Commands.SetTxParams) cfgPa5 s0).2.1).drv.config.pa_config ≠
      s0.drv.config.pa_config ∧
    ((configure ftsId (halFailOn Commands.SetTxParams) cfgPa5 s0).2.1).drv.config.pa_config =
      { power := 5, ramp_time := 2 } := by
  decide

/-- C2 amended: the regulator-mode, channel and modem steps of configure
update the retained Configuration only after the corresponding device
write has succeeded -- a failure in or before a step leaves that step's
retained value unchanged; the power-amplifier step instead records the
clamped power and ramp into the retained pa_config before issuing its bus
write, so a failed power write leaves the retained pa_config holding the
new clamped values. -/
theorem c2_amended (fts : Nat → Nat) (hal : Hal) (cfg : Config) (s : DSt) :
    (∀ e s1 t1, configure_prelude hal cfg s = (Except.error e, s1, t1) →
       configure fts hal cfg s = (Except.error e, s1, t1) ∧
       s1.drv.config = s.drv.config)
    ∧
    (∀ s1 t1 e s2 t2, configure_prelude hal cfg s = (Except.ok (), s1, t1) →
       set_channel fts hal cfg.channel s1 = (Except.error e, s2, t2) →
       configure fts hal cfg s = (Except.error e, s2, t1 ++ t2) ∧
       s2.drv.config.channel = s.drv.config.channel ∧
       s2.drv.config.modem = s.drv.config.modem ∧
       s2.drv.config.pa_config = s.drv.config.pa_config)
    ∧
    (∀ s1 t1 s2 t2 e s3 t3, configure_prelude hal cfg s = (Except.ok (), s1, t1) →
       set_channel fts hal cfg.channel s1 = (Except.ok (), s2, t2) →
       configure_modem hal cfg.modem
         { s2 with drv := { s2.drv with
             config := { s2.drv.config with channel := cfg.channel } } } =
         (Except.error e, s3, t3) →
       configure fts hal cfg s = (Except.error e, s3, t1 ++ t2 ++ t3) ∧
       s3.drv.config.modem = s.drv.config.modem ∧
       s3.drv.config.pa_config = s.drv.config.pa_config ∧
       s3.drv.config.channel = cfg.channel)
    ∧
    (∀ (p : Int) (ramp : Nat) (e : Error),
       hal s.calls (BusOp.writeCmd Commands.SetTxParams
         [(min (max p (-18)) 13 + 18).toNat, ramp]) = HalResult.err e →
       set_power_ramp hal p ramp s =
         (Except.error e,
          ⟨{ s.drv with config := { s.drv.config with
               pa_config := { power := min (max p (-18)) 13, ramp_time := ramp } } },
           s.calls + 1⟩,
          [BusOp.writeCmd Commands.SetTxParams
            [(min (max p (-18)) 13 + 18).toNat, ramp]])) := by
  refine ⟨?_, ?_, ?_, ?_⟩
  · intro e s1 t1 hpre
    refine ⟨?_, ?_⟩
    · unfold configure
      rw [M.bind_err hpre]
    · rw [configure_prelude_err hpre]
  · intro s1 t1 e s2 t2 hpre hch
    obtain ⟨hfam, hs1, ht1⟩ := configure_prelude_ok hpre
    have hcc := set_channel_config fts hal cfg.channel s1
    rw [hch] at hcc
    refine ⟨?_, ?_, ?_, ?_⟩
    · unfold configure
      rw [M.bind_ok hpre (M.bind_err hch)]
    · rw [hcc, hs1]
    · rw [hcc, hs1]
    · rw [hcc, hs1]
  · intro s1 t1 s2 t2 e s3 t3 hpre hch hmod
    obtain ⟨hfam, hs1, ht1⟩ := configure_prelude_ok hpre
    have hcc := set_channel_config fts hal cfg.channel s1
    rw [hch] at hcc
    have hmc := configure_modem_config hal cfg.modem
      { s2 with drv := { s2.drv with
          config := { s2.drv.config with channel := cfg.channel } } }
    rw [hmod] at hmc
    refine ⟨?_, ?_, ?_, ?_⟩
    · unfold configure
      rw [M.bind_ok hpre (M.bind_ok hch (M.bind_ok (modifyDrv_run _ s2)
        (M.bind_err hmod)))]
      simp [List.append_assoc]
    · rw [hmc]
      simp only []
      rw [hcc, hs1]
    · rw [hmc]
      simp only []
      rw [hcc, hs1]
    · rw [hmc]
  · intro p ramp e hw
    rw [set_power_ramp_run, hw]
    rfl

/-- C2 amended witness: concrete runs failing at each step in turn; the
first three retained values stay unchanged, while a failed power write
leaves the retained pa_config already holding the new values. -/
theorem c2_amended_witness :
    ((configure ftsId (halFailOn Commands.SetRegulatorMode) cfgPa5 s0).2.1).drv.config =
      s0.drv.config ∧
    ((configure ftsId (halFailOn Commands.SetRfFrequency) cfgPa5 s0).2.1).drv.config.channel =
      s0.drv.config.channel ∧
    ((configure ftsId (halFailOn Commands.SetPacketParams) cfgPa5 s0).2.1).drv.config.modem =
      s0.drv.config.modem ∧
    ((set_power_ramp (halFailOn Commands.SetTxParams) 5 2 s0).2.1).drv.config.pa_config =
      { power := 5, ramp_time := 2 } := by
  refine ⟨?_, ?_, ?_, ?_⟩
  · obtain ⟨hc, hcfg⟩ :=
      (c2_amended ftsId (halFailOn Commands.SetRegulatorMode) cfgPa5 s0).1 _ _ _ rfl
    rw [hc]
  · obtain ⟨hc, hch, -, -⟩ :=
      (c2_amended ftsId (halFailOn Commands.SetRfFrequency) cfgPa5 s0).2.1 _ _ _ _ _ rfl rfl
    rw [hc]
  · obtain ⟨hc, hmod, -, -⟩ :=
      (c2_amended ftsId (halFailOn Commands.SetPacketParams) cfgPa5 s0).2.2.1
        _ _ _ _ _ _ _ rfl rfl rfl
    rw [hc]
  · have hp := (c2_amended ftsId (halFailOn Commands.SetTxParams) cfgPa5 s0).2.2.2
      5 2 (Error.Comms 0) rfl
    rw [hp]
    decide

/-- C5: for every (packet type, index) pair outside the sync-word table
set_syncword fails with InvalidConfiguration and issues no bus
transaction; the same holds when the value's length differs from the
mandated length; and the mandated lengths are 5 for GFSK and 4 for
FLRC/BLE. -/
theorem c5_theorem (hal : Hal) (s : DSt) (index : Nat) (value : List Nat) :
    (syncWordEntry s.drv.packet_type index = none →
      set_syncword hal index value s = (Except.error Error.InvalidConfiguration, s, []))
    ∧
    (∀ addr len, syncWordEntry s.drv.packet_type index = some (addr, len) →
      value.length ≠ len →
      set_syncword hal index value s = (Except.error Error.InvalidConfiguration, s, []))
    ∧
    (∀ pt i addr len, syncWordEntry pt i = some (addr, len) →
      (pt = PacketType.Gfsk ∧ len = 5) ∨
      ((pt = PacketType.Flrc ∨ pt = PacketType.Ble) ∧ len = 4)) := by
  refine ⟨?_, ?_, ?_⟩
  · intro hsw
    unfold set_syncword
    rw [bind_getDrv]
    simp [hsw, throwE]
  · intro addr len hsw hlen
    unfold set_syncword
    rw [bind_getDrv]
    simp [hsw, hlen, throwE]
  · intro pt i addr len hsw
    cases pt <;> rcases i with _ | _ | _ | _ | n <;>
      simp_all [syncWordEntry]

/-- C5 witness: a LoRa packet type (outside the table) at index 4 fails
with no bus op; a GFSK sync word of length 4 (mandated 5) fails with no
bus op; the GFSK table entry at index 1 mandates length 5. -/
theorem c5_witness :
    set_syncword halOk 4 [1, 2, 3, 4, 5] sLora =
      (Except.error Error.InvalidConfiguration, sLora, []) ∧
    set_syncword halOk 1 [1, 2, 3, 4] sGfsk =
      (Except.error Error.InvalidConfiguration, sGfsk, []) ∧
    ((PacketType.Gfsk = PacketType.Gfsk ∧ 5 = 5) ∨
      ((PacketType.Gfsk = PacketType.Flrc ∨ PacketType.Gfsk = PacketType.Ble) ∧ 5 = 4)) :=
  ⟨(c5_theorem halOk sLora 4 [1, 2, 3, 4, 5]).1 (by decide),
   (c5_theorem halOk sGfsk 1 [1, 2, 3, 4]).2.1
     (Registers.addr Registers.LrSyncWordBaseAddress1) 5 (by decide) (by decide),
   (c5_theorem halOk sGfsk 1 [1, 2, 3, 4]).2.2 PacketType.Gfsk 1
     (Registers.addr Registers.LrSyncWordBaseAddress1) 5 (by decide)⟩

/-- C6: set_power_ramp clamps the power to [-18, 13] and never rejects an
out-of-range value (the call's outcome is exactly the single SetTxParams
write's outcome), encodes the clamped value as the byte clamped + 18, and
subtracting 18 from the encoded byte recovers the clamped value exactly. -/
theorem c6_theorem (hal : Hal) (p : Int) (ramp : Nat) (s : DSt) :
    set_power_ramp hal p ramp s =
      (writeResult (hal s.calls (BusOp.writeCmd Commands.SetTxParams
         [(min (max p (-18)) 13 + 18).toNat, ramp])),
       ⟨{ s.drv with config := { s.drv.config with
            pa_config := { power := min (max p (-18)) 13, ramp_time := ramp } } },
        s.calls + 1⟩,
       [BusOp.writeCmd Commands.SetTxParams [(min (max p (-18)) 13 + 18).toNat, ramp]]) ∧
    (-18 : Int) ≤ min (max p (-18)) 13 ∧
    min (max p (-18)) 13 ≤ 13 ∧
    ((min (max p (-18)) 13 + 18).toNat : Int) - 18 = min (max p (-18)) 13 := by
  have hlo : (-18 : Int) ≤ min (max p (-18)) 13 :=
    le_min (le_max_right p (-18)) (by norm_num)
  have hhi : min (max p (-18)) 13 ≤ 13 := min_le_right _ _
  refine ⟨set_power_ramp_run hal p ramp s, hlo, hhi, ?_⟩
  have h0 : (0 : Int) ≤ min (max p (-18)) 13 + 18 := by omega
  rw [Int.toNat_of_nonneg h0]
  omega

/-- C7: in LoRa/Ranging packet mode get_packet_info decodes the SNR from
the second status byte as raw/4 when raw < 128 and (raw - 256)/4
otherwise (i16 truncating division), alongside rssi = -(first byte)/2 and
the flag fields. -/
theorem c7_theorem (hal : Hal) (info : PacketInfo) (s : DSt)
    (d0 d1 d2 d3 d4 : Nat) (h0 : d0 < 256) (h1 : d1 < 256) (h2 : d2 < 256)
    (h3 : d3 < 256) (h4 : d4 < 256)
    (hpt : s.drv.packet_type = PacketType.LoRa ∨ s.drv.packet_type = PacketType.Ranging)
    (hread : hal s.calls (BusOp.readCmd Commands.GetPacketStatus 5) =
      HalResult.ok [d0, d1, d2, d3, d4]) :
    get_packet_info hal info s =
      (Except.ok { info with
         rssi := Int.tdiv (-(d0 : Int)) 2,
         snr := some (if (d1 : Int) < 128 then Int.tdiv (d1 : Int) 4
                      else Int.tdiv ((d1 : Int) - 256) 4),
         packet_status := d2,
         tx_rx_status := d3,
         sync_addr_status := d4 &&& 0b0111 },
       ⟨s.drv, s.calls + 1⟩, [BusOp.readCmd Commands.GetPacketStatus 5]) := by
  rcases hpt with hpt | hpt <;>
    simp [get_packet_info, read_cmd, halOp, readResult, hread, M.bind, M.pure,
      getDrv, hpt, Nat.mod_eq_of_lt h0, Nat.mod_eq_of_lt h1, Nat.mod_eq_of_lt h2,
      Nat.mod_eq_of_lt h3, Nat.mod_eq_of_lt h4]

/-- C7 witness: raw SNR byte 10 decodes to 2 and raw byte 250 decodes to
-1 (the wraparound branch), in LoRa mode. -/
theorem c7_witness :
    get_packet_info (halPktStat 10) info0 sLora =
      (Except.ok { info0 with
         rssi := -5
         snr := some 2
         packet_status := 3
         tx_rx_status := 4
         sync_addr_status := 5 },
       ⟨sLora.drv, 1⟩, [BusOp.readCmd Commands.GetPacketStatus 5]) ∧
    get_packet_info (halPktStat 250) info0 sLora =
      (Except.ok { info0 with
         rssi := -5
         snr := some (-1)
         packet_status := 3
         tx_rx_status := 4
         sync_addr_status := 5 },
       ⟨sLora.drv, 1⟩, [BusOp.readCmd Commands.GetPacketStatus 5]) := by
  constructor
  · rw [c7_theorem (halPktStat 10) info0 sLora 10 10 3 4 5 (by decide) (by decide)
      (by decide) (by decide) (by decide) (Or.inl (by decide)) rfl]
    decide
  · rw [c7_theorem (halPktStat 250) info0 sLora 10 250 3 4 5 (by decide) (by decide)
      (by decide) (by decide) (by decide) (Or.inl (by decide)) rfl]
    decide

/-- C8 counterexample: in BLE mode with a chip-reported status byte of
255, get_rx_buffer_status returns length 1 (u8 wraparound), not the
claimed status byte plus 2 = 257. -/
theorem c8_counterexample :
    (get_rx_buffer_status (halRxStat 255 0) sBle).1 = Except.ok (0, 1) ∧
    (1 : Nat) ≠ 255 + 2 := by
  decide

/-- C8 amended: the returned length is the chip-reported byte plus 2
reduced modulo 256 (u8 arithmetic) for BLE, the payload-length register
value for implicit-header LoRa (the reported byte is ignored), and the
reported byte unchanged otherwise; the pointer is the second reported
byte. -/
theorem c8_amended (hal : Hal) (s : DSt) (b0 b1 : Nat) (hb0 : b0 < 256) (hb1 : b1 < 256)
    (hread : hal s.calls (BusOp.readCmd Commands.GetRxBufferStatus 2) =
      HalResult.ok [b0, b1]) :
    (∀ cb, s.drv.config.modem = Modem.Ble cb →
      get_rx_buffer_status hal s =
        (Except.ok (b1, (b0 + 2) % 256), ⟨s.drv, s.calls + 1⟩,
         [BusOp.readCmd Commands.GetRxBufferStatus 2]))
    ∧
    (∀ c, s.drv.config.modem = Modem.LoRa c → c.header_type = LoRaHeader.Implicit →
      ∀ v, v < 256 →
        hal (s.calls + 1) (BusOp.readRegs (Registers.addr Registers.LrPayloadLength) 1) =
          HalResult.ok [v] →
        get_rx_buffer_status hal s =
          (Except.ok (b1, v), ⟨s.drv, s.calls + 2⟩,
           [BusOp.readCmd Commands.GetRxBufferStatus 2,
            BusOp.readRegs (Registers.addr Registers.LrPayloadLength) 1]))
    ∧
    ((∀ cb, s.drv.config.modem ≠ Modem.Ble cb) →
      (∀ c, s.drv.config.modem = Modem.LoRa c → c.header_type = LoRaHeader.Explicit) →
      get_rx_buffer_status hal s =
        (Except.ok (b1, b0), ⟨s.drv, s.calls + 1⟩,
         [BusOp.readCmd Commands.GetRxBufferStatus 2])) := by
  refine ⟨?_, ?_, ?_⟩
  · intro cb hm
    simp [get_rx_buffer_status, read_cmd, halOp, readResult, hread, M.bind, M.pure,
      getDrv, hm, Nat.mod_eq_of_lt hb0, Nat.mod_eq_of_lt hb1]
  · intro c hm hhdr v hv hreg
    simp [get_rx_buffer_status, read_cmd, read_reg, halOp, readResult, hread, hreg,
      M.bind, M.pure, getDrv, hm, hhdr, Nat.mod_eq_of_lt hb0, Nat.mod_eq_of_lt hb1,
      Nat.mod_eq_of_lt hv]
  · intro hnb hlx
    cases hm : s.drv.config.modem with
    | Ble cb => exact absurd hm (hnb cb)
    | LoRa c =>
      have hh := hlx c hm
      simp [get_rx_buffer_status, read_cmd, halOp, readResult, hread, M.bind, M.pure,
        getDrv, hm, hh, Nat.mod_eq_of_lt hb0, Nat.mod_eq_of_lt hb1]
    | Gfsk c =>
      simp [get_rx_buffer_status, read_cmd, halOp, readResult, hread, M.bind, M.pure,
        getDrv, hm, Nat.mod_eq_of_lt hb0, Nat.mod_eq_of_lt hb1]
    | Ranging c =>
      simp [get_rx_buffer_status, read_cmd, halOp, readResult, hread, M.bind, M.pure,
        getDrv, hm, Nat.mod_eq_of_lt hb0, Nat.mod_eq_of_lt hb1]
    | Flrc c =>
      simp [get_rx_buffer_status, read_cmd, halOp, readResult, hread, M.bind, M.pure,
        getDrv, hm, Nat.mod_eq_of_lt hb0, Nat.mod_eq_of_lt hb1]
    | None =>
      simp [get_rx_buffer_status, read_cmd, halOp, readResult, hread, M.bind, M.pure,
        getDrv, hm, Nat.mod_eq_of_lt hb0, Nat.mod_eq_of_lt hb1]

/-- C8 amended witness: BLE (reported 10 becomes 12), implicit-header LoRa
(register value 77 replaces the reported 10), and explicit-header LoRa
(reported 10 unchanged). -/
theorem c8_amended_witness :
    get_rx_buffer_status (halRxStat 10 3) sBle =
      (Except.ok (3, 12), ⟨sBle.drv, 1⟩,
       [BusOp.readCmd Commands.GetRxBufferStatus 2]) ∧
    get_rx_buffer_status (halRxStat 10 3) sLoraImplicit =
      (Except.ok (3, 77), ⟨sLoraImplicit.drv, 2⟩,
       [BusOp.readCmd Commands.GetRxBufferStatus 2,
        BusOp.readRegs (Registers.addr Registers.LrPayloadLength) 1]) ∧
    get_rx_buffer_status (halRxStat 10 3) sLora =
      (Except.ok (3, 10), ⟨sLora.drv, 1⟩,
       [BusOp.readCmd Commands.GetRxBufferStatus 2]) := by
  refine ⟨?_, ?_, ?_⟩
  · rw [(c8_amended (halRxStat 10 3) sBle 10 3 (by decide) (by decide) rfl).1
      blePacketSample rfl]
    decide
  · rw [(c8_amended (halRxStat 10 3) sLoraImplicit 10 3 (by decide) (by decide) rfl).2.1
      loraImplicitSample rfl rfl 77 (by decide) rfl]
    decide
  · rw [(c8_amended (halRxStat 10 3) sLora 10 3 (by decide) (by decide) rfl).2.2
      (fun cb h => Modem.noConfusion h) ?_]
    · decide
    · intro c hm
      injection hm with hc
      subst hc
      decide

/-- C9: construction reads the firmware version after reset; 0xFFFF or
0x0000 fail with NoComms; any other non-0xA9B5 value fails with
InvalidDevice(v) unless skip_version_check is set; with
skip_version_check the run proceeds exactly as the remaining
configure-and-standby sequence (the mismatch only warns). -/
theorem c9_theorem (fts : Nat → Nat) (hal : Hal) (cfg : Config) (rbs : List Nat)
    (d0 d1 : Nat) (hd0 : d0 < 256) (hd1 : d1 < 256)
    (hreset : hal 0 BusOp.reset = HalResult.ok rbs)
    (hfw : hal 1 (BusOp.readRegs (Registers.addr Registers.LrFirmwareVersionMsb) 2) =
      HalResult.ok [d0, d1]) :
    ((d0 <<< 8 ||| d1 = 0xFFFF ∨ d0 <<< 8 ||| d1 = 0x0000) →
      new fts hal cfg ⟨buildSt, 0⟩ =
        (Except.error Error.NoComms, ⟨buildSt, 2⟩,
         [BusOp.reset, BusOp.readRegs (Registers.addr Registers.LrFirmwareVersionMsb) 2]))
    ∧
    (d0 <<< 8 ||| d1 ≠ 0xFFFF → d0 <<< 8 ||| d1 ≠ 0x0000 → d0 <<< 8 ||| d1 ≠ 0xA9B5 →
      cfg.skip_version_check = false →
      new fts hal cfg ⟨buildSt, 0⟩ =
        (Except.error (Error.InvalidDevice (d0 <<< 8 ||| d1)), ⟨buildSt, 2⟩,
         [BusOp.reset, BusOp.readRegs (Registers.addr Registers.LrFirmwareVersionMsb) 2]))
    ∧
    (d0 <<< 8 ||| d1 ≠ 0xFFFF → d0 <<< 8 ||| d1 ≠ 0x0000 →
      cfg.skip_version_check = true →
      ∀ r s2 t2,
        M.bind (configure fts hal cfg) (fun _ => set_state hal State.StandbyRc)
          ⟨buildSt, 2⟩ = (r, s2, t2) →
        new fts hal cfg ⟨buildSt, 0⟩ =
          (r, s2,
           BusOp.reset ::
             BusOp.readRegs (Registers.addr Registers.LrFirmwareVersionMsb) 2 :: t2)) := by
  have hr : hal_reset hal ⟨buildSt, 0⟩ =
      (Except.ok (), ⟨buildSt, 1⟩, [BusOp.reset]) := by
    rw [hal_reset_run, hreset]
    rfl
  have hf : firmware_version hal ⟨buildSt, 1⟩ =
      (Except.ok (d0 <<< 8 ||| d1), ⟨buildSt, 2⟩,
       [BusOp.readRegs (Registers.addr Registers.LrFirmwareVersionMsb) 2]) := by
    simp [firmware_version, halOp, hfw, readResult, M.bind, M.pure,
      Nat.mod_eq_of_lt hd0, Nat.mod_eq_of_lt hd1]
  refine ⟨?_, ?_, ?_⟩
  · intro hv
    have hif : (if d0 <<< 8 ||| d1 = 0xFFFF ∨ d0 <<< 8 ||| d1 = 0x0000 then
        throwE (α := Unit) Error.NoComms else M.pure ()) ⟨buildSt, 2⟩ =
        (Except.error Error.NoComms, ⟨buildSt, 2⟩, []) := by
      rw [if_pos hv]
      rfl
    unfold new
    rw [M.bind_ok hr (M.bind_ok hf (M.bind_err hif))]
    simp
  · intro hv1 hv2 hv3 hskip
    have hif1 : (if d0 <<< 8 ||| d1 = 0xFFFF ∨ d0 <<< 8 ||| d1 = 0x0000 then
        throwE (α := Unit) Error.NoComms else M.pure ()) ⟨buildSt, 2⟩ =
        (Except.ok (), ⟨buildSt, 2⟩, []) := by
      rw [if_neg (by tauto)]
      rfl
    have hif2 : (if d0 <<< 8 ||| d1 ≠ 0xA9B5 ∧ cfg.skip_version_check = false then
        throwE (α := Unit) (Error.InvalidDevice (d0 <<< 8 ||| d1)) else M.pure ())
        ⟨buildSt, 2⟩ =
        (Except.error (Error.InvalidDevice (d0 <<< 8 ||| d1)), ⟨buildSt, 2⟩, []) := by
      rw [if_pos ⟨hv3, hskip⟩]
      rfl
    unfold new
    rw [M.bind_ok hr (M.bind_ok hf (M.bind_ok hif1 (M.bind_err hif2)))]
    simp
  · intro hv1 hv2 hskip r s2 t2 hrest
    have hif1 : (if d0 <<< 8 ||| d1 = 0xFFFF ∨ d0 <<< 8 ||| d1 = 0x0000 then
        throwE (α := Unit) Error.NoComms else M.pure ()) ⟨buildSt, 2⟩ =
        (Except.ok (), ⟨buildSt, 2⟩, []) := by
      rw [if_neg (by tauto)]
      rfl
    have hif2 : (if d0 <<< 8 ||| d1 ≠ 0xA9B5 ∧ cfg.skip_version_check = false then
        throwE (α := Unit) (Error.InvalidDevice (d0 <<< 8 ||| d1)) else M.pure ())
        ⟨buildSt, 2⟩ = (Except.ok (), ⟨buildSt, 2⟩, []) := by
      rw [if_neg (by simp [hskip])]
      rfl
    unfold new
    rw [M.bind_ok hr (M.bind_ok hf (M.bind_ok hif1 (M.bind_ok hif2 hrest)))]
    simp

/-- C9 witness: firmware 0x0000 fails with NoComms; firmware 0x1234
without skip_version_check fails with InvalidDevice(0x1234); with
skip_version_check construction succeeds. -/
theorem c9_witness :
    new ftsId (halFwResp 0 0) Config.default ⟨buildSt, 0⟩ =
      (Except.error Error.NoComms, ⟨buildSt, 2⟩,
       [BusOp.reset, BusOp.readRegs (Registers.addr Registers.LrFirmwareVersionMsb) 2]) ∧
    new ftsId (halFwResp 0x12 0x34) Config.default ⟨buildSt, 0⟩ =
      (Except.error (Error.InvalidDevice 0x1234), ⟨buildSt, 2⟩,
       [BusOp.reset, BusOp.readRegs (Registers.addr Registers.LrFirmwareVersionMsb) 2]) ∧
    (new ftsId (halFwResp 0x12 0x34) cfgSkip ⟨buildSt, 0⟩).1 = Except.ok () := by
  refine ⟨?_, ?_, ?_⟩
  · exact (c9_theorem ftsId (halFwResp 0 0) Config.default [] 0 0 (by decide) (by decide)
      rfl rfl).1 (by decide)
  · exact (c9_theorem ftsId (halFwResp 0x12 0x34) Config.default [] 0x12 0x34
      (by decide) (by decide) rfl rfl).2.1 (by decide) (by decide) (by decide) rfl
  · rw [(c9_theorem ftsId (halFwResp 0x12 0x34) cfgSkip [] 0x12 0x34
      (by decide) (by decide) rfl rfl).2.2 (by decide) (by decide) rfl _ _ _ rfl]

/-- A flag word containing a nonzero mask is nonzero. -/
theorem Irq.contains_nonzero {irq mask : Nat} (h : Irq.contains irq mask = true)
    (hm : mask ≠ 0) : irq ≠ 0 := by
  intro h0
  subst h0
  simp [Irq.contains] at h
  exact hm h.symm

/-- Closed form of a read-and-clear of a nonzero IRQ word. -/
theorem get_interrupts_clear_run (hal : Hal) (s : DSt) (b0 b1 : Nat)
    (hb0 : b0 < 256) (hb1 : b1 < 256) (cbs : List Nat)
    (hread : hal s.calls (BusOp.readCmd Commands.GetIrqStatus 2) = HalResult.ok [b0, b1])
    (hclear : hal (s.calls + 1) (BusOp.writeCmd Commands.ClearIrqStatus [b0, b1]) =
      HalResult.ok cbs)
    (hne : b0 <<< 8 ||| b1 ≠ 0) :
    get_interrupts hal true s =
      (Except.ok (b0 <<< 8 ||| b1), ⟨s.drv, s.calls + 2⟩,
       [BusOp.readCmd Commands.GetIrqStatus 2,
        BusOp.writeCmd Commands.ClearIrqStatus [b0, b1]]) := by
  simp [get_interrupts, read_cmd, write_cmd, halOp, readResult, hread, hclear,
    M.bind, M.pure, Nat.mod_eq_of_lt hb0, Nat.mod_eq_of_lt hb1, hne]

/-- C3: when the read-and-cleared IRQ word reports an error outcome, a
check_receive with restart=false returns the mapped error (InvalidCrc for
CRC_ERROR with priority over RX_TX_TIMEOUT's Timeout) after just the
read/clear transactions, while restart=true instead runs start_receive
exactly once from the post-clear state and reports Ok(false). -/
theorem c3_theorem (hal : Hal) (s : DSt) (b0 b1 : Nat) (hb0 : b0 < 256) (hb1 : b1 < 256)
    (cbs : List Nat)
    (hread : hal s.calls (BusOp.readCmd Commands.GetIrqStatus 2) = HalResult.ok [b0, b1])
    (hclear : hal (s.calls + 1) (BusOp.writeCmd Commands.ClearIrqStatus [b0, b1]) =
      HalResult.ok cbs) :
    (Irq.contains (b0 <<< 8 ||| b1) Irq.CRC_ERROR = true →
      check_receive hal false s =
        (Except.error Error.InvalidCrc, ⟨s.drv, s.calls + 2⟩,
         [BusOp.readCmd Commands.GetIrqStatus 2,
          BusOp.writeCmd Commands.ClearIrqStatus [b0, b1]]) ∧
      (∀ s2 t2, start_receive hal ⟨s.drv, s.calls + 2⟩ = (Except.ok (), s2, t2) →
        check_receive hal true s =
          (Except.ok false, s2,
           BusOp.readCmd Commands.GetIrqStatus 2 ::
             BusOp.writeCmd Commands.ClearIrqStatus [b0, b1] :: t2)))
    ∧
    (Irq.contains (b0 <<< 8 ||| b1) Irq.CRC_ERROR = false →
      Irq.contains (b0 <<< 8 ||| b1) Irq.RX_TX_TIMEOUT = true →
      check_receive hal false s =
        (Except.error Error.Timeout, ⟨s.drv, s.calls + 2⟩,
         [BusOp.readCmd Commands.GetIrqStatus 2,
          BusOp.writeCmd Commands.ClearIrqStatus [b0, b1]]) ∧
      (∀ s2 t2, start_receive hal ⟨s.drv, s.calls + 2⟩ = (Except.ok (), s2, t2) →
        check_receive hal true s =
          (Except.ok false, s2,
           BusOp.readCmd Commands.GetIrqStatus 2 ::
             BusOp.writeCmd Commands.ClearIrqStatus [b0, b1] :: t2))) := by
  constructor
  · intro hcrc
    have hne : b0 <<< 8 ||| b1 ≠ 0 := Irq.contains_nonzero hcrc (by decide)
    have hgi := get_interrupts_clear_run hal s b0 b1 hb0 hb1 cbs hread hclear hne
    constructor
    · unfold check_receive
      rw [M.bind_ok hgi (show _ = (Except.error Error.InvalidCrc,
          (⟨s.drv, s.calls + 2⟩ : DSt), ([] : List BusOp)) by
        simp [hcrc])]
      simp
    · intro s2 t2 hstart
      unfold check_receive
      rw [M.bind_ok hgi (show _ = (Except.ok false, s2, t2) by
        simp [hcrc]
        rw [M.bind_ok hstart (show M.pure false s2 = (Except.ok false, s2, []) from rfl)]
        simp)]
      simp
  · intro hcrc htime
    have hne : b0 <<< 8 ||| b1 ≠ 0 := Irq.contains_nonzero htime (by decide)
    have hgi := get_interrupts_clear_run hal s b0 b1 hb0 hb1 cbs hread hclear hne
    constructor
    · unfold check_receive
      rw [M.bind_ok hgi (show _ = (Except.error Error.Timeout,
          (⟨s.drv, s.calls + 2⟩ : DSt), ([] : List BusOp)) by
        simp [hcrc, htime])]
      simp
    · intro s2 t2 hstart
      unfold check_receive
      rw [M.bind_ok hgi (show _ = (Except.ok false, s2, t2) by
        simp [hcrc, htime]
        rw [M.bind_ok hstart (show M.pure false s2 = (Except.ok false, s2, []) from rfl)]
        simp)]
      simp

/-- C3 witness: a CRC-error IRQ word (0x0040) and a timeout IRQ word
(0x4000) from a LoRa receive state; restart=false surfaces the errors,
restart=true restarts reception and reports Ok(false). -/
theorem c3_witness :
    check_receive (halIrqResp 0 0x40) false sLora =
      (Except.error Error.InvalidCrc, ⟨sLora.drv, 2⟩,
       [BusOp.readCmd Commands.GetIrqStatus 2,
        BusOp.writeCmd Commands.ClearIrqStatus [0, 0x40]]) ∧
    (check_receive (halIrqResp 0 0x40) true sLora).1 = Except.ok false ∧
    check_receive (halIrqResp 0x40 0) false sLora =
      (Except.error Error.Timeout, ⟨sLora.drv, 2⟩,
       [BusOp.readCmd Commands.GetIrqStatus 2,
        BusOp.writeCmd Commands.ClearIrqStatus [0x40, 0]]) ∧
    (check_receive (halIrqResp 0x40 0) true sLora).1 = Except.ok false := by
  refine ⟨?_, ?_, ?_, ?_⟩
  · exact ((c3_theorem (halIrqResp 0 0x40) sLora 0 0x40 (by decide) (by decide) []
      rfl rfl).1 (by decide)).1
  · rw [((c3_theorem (halIrqResp 0 0x40) sLora 0 0x40 (by decide) (by decide) []
      rfl rfl).1 (by decide)).2 _ _ rfl]
  · exact ((c3_theorem (halIrqResp 0x40 0) sLora 0x40 0 (by decide) (by decide) []
      rfl rfl).2 (by decide) (by decide)).1
  · rw [((c3_theorem (halIrqResp 0x40 0) sLora 0x40 0 (by decide) (by decide) []
      rfl rfl).2 (by decide) (by decide)).2 _ _ rfl]

/-- Counting command writes distributes over trace concatenation. -/
theorem countCmd_append (c : Commands) (l1 l2 : List BusOp) :
    countCmd c (l1 ++ l2) = countCmd c l1 + countCmd c l2 :=
  List.countP_append _ _ _

/-- The write predicate on a command write compares the opcodes. -/
theorem isCmdWrite_writeCmd (c c' : Commands) (d : List Nat) :
    isCmdWrite c (BusOp.writeCmd c' d) = (c' == c) := rfl

/-- Counting a single command write compares the opcodes. -/
theorem countCmd_single (c c' : Commands) (d : List Nat) :
    countCmd c [BusOp.writeCmd c' d] = if c' = c then 1 else 0 := by
  by_cases h : c' = c
  · subst h
    simp [countCmd, List.countP, List.countP.go, isCmdWrite]
  · have hb : (c' == c) = false := by
      simp [h]
    simp [countCmd, List.countP, List.countP.go, isCmdWrite, hb, h]

/-- The trace of a bind is the trace of the first part followed by (on
success) the trace of the continuation. -/
theorem M.bind_trace {α β : Type} (x : M α) (f : α → M β) (s : DSt) :
    (M.bind x f s).2.2 =
      (x s).2.2 ++ (match (x s).1 with
        | Except.ok a => (f a ((x s).2.1)).2.2
        | Except.error _ => []) := by
  rcases hx : x s with ⟨r, s1, t1⟩
  cases r with
  | ok a =>
    rcases hf : f a s1 with ⟨r2, s2, t2⟩
    rw [M.bind_ok hx hf]
    simp [hf]
  | error e =>
    rw [M.bind_err hx]
    simp

/-- set_syncword issues no command writes at all (only register
transactions), so any command-write count of its trace is zero. -/
theorem set_syncword_countCmd (c' : Commands) (hal : Hal) (i : Nat) (v : List Nat)
    (s : DSt) : countCmd c' ((set_syncword hal i v s).2.2) = 0 := by
  unfold set_syncword
  rw [bind_getDrv]
  cases hsw : syncWordEntry s.drv.packet_type i with
  | none => simp [hsw, throwE, countCmd]
  | some al =>
    rcases al with ⟨addr, len⟩
    simp only [hsw]
    by_cases hl : v.length ≠ len
    · simp [hl, throwE, countCmd]
    · simp only [if_neg hl]
      rw [M.bind_trace]
      rw [write_regs_run]
      cases hwr : hal s.calls (BusOp.writeRegs addr v) with
      | err e => simp [writeResult, countCmd, isCmdWrite]
      | ok bs =>
        simp only [writeResult, countCmd_append]
        cases hpt : s.drv.packet_type with
        | Flrc =>
          rw [M.bind_trace, read_reg_run]
          cases hrd : hal (s.calls + 1)
              (BusOp.readRegs (Registers.addr Registers.LrSyncWordTolerance) 1) with
          | err e => simp [countCmd, isCmdWrite]
          | ok bs2 =>
            simp only []
            rw [show write_reg hal (Registers.addr Registers.LrSyncWordTolerance)
              (((bs2.map (fun b => b % 256)).getD 0 0) &&& 0xF0) =
              write_regs hal (Registers.addr Registers.LrSyncWordTolerance)
                [((bs2.map (fun b => b % 256)).getD 0 0) &&& 0xF0] from rfl]
            rw [write_regs_run]
            simp [countCmd, isCmdWrite, countCmd_append]
        | None => simp [M.pure, countCmd, isCmdWrite]
        | Gfsk => simp [M.pure, countCmd, isCmdWrite]
        | LoRa => simp [M.pure, countCmd, isCmdWrite]
        | Ble => simp [M.pure, countCmd, isCmdWrite]
        | Ranging => simp [M.pure, countCmd, isCmdWrite]

/-- When the mirrored packet type already equals the modem's family,
configure_modem writes no SetPacketType command. -/
theorem configure_modem_noPT (hal : Hal) {m : Modem} {s : DSt}
    (hpt : s.drv.packet_type = PacketType.ofModem m) :
    countCmd Commands.SetPacketType ((configure_modem hal m s).2.2) = 0 := by
  unfold configure_modem
  rw [M.bind_trace, update_packet_type_eq hpt]
  simp only [List.nil_append]
  rw [M.bind_trace, write_cmd_run]
  cases m with
  | Gfsk c =>
    cases hw : hal s.calls (BusOp.writeCmd Commands.SetPacketParams
        [c.preamble_length, c.sync_word_length, c.sync_word_match,
         c.header_type, c.payload_length, c.crc_mode, c.whitening]) <;>
      simp [hw, writeResult, M.pure, countCmd_single]
  | LoRa c =>
    cases hw : hal s.calls (BusOp.writeCmd Commands.SetPacketParams
        [c.preamble_length, c.header_type.toByte, c.payload_length,
         c.crc_mode, c.invert_iq, 0, 0]) <;>
      simp [hw, writeResult, M.pure, countCmd_single]
  | Ranging c =>
    cases hw : hal s.calls (BusOp.writeCmd Commands.SetPacketParams
        [c.preamble_length, c.header_type.toByte, c.payload_length,
         c.crc_mode, c.invert_iq, 0, 0]) <;>
      simp [hw, writeResult, M.pure, countCmd_single]
  | Ble c =>
    cases hw : hal s.calls (BusOp.writeCmd Commands.SetPacketParams
        [c.connection_state, c.crc_field, c.packet_type, c.whitening, 0, 0, 0]) <;>
      simp [hw, writeResult, M.pure, countCmd_single]
  | None =>
    cases hw : hal s.calls (BusOp.writeCmd Commands.SetPacketParams
        [0, 0, 0, 0, 0, 0, 0]) <;>
      simp [hw, writeResult, M.pure, countCmd_single]
  | Flrc c =>
    cases hw : hal s.calls (BusOp.writeCmd Commands.SetPacketParams
        [c.preamble_length, c.sync_word_length, c.sync_word_match,
         c.header_type, c.payload_length, c.crc_mode, c.whitening]) with
    | err e =>
      simp [hw, writeResult, countCmd_single]
    | ok bs =>
      cases hv : c.sync_word_value with
      | none =>
        simp [hw, hv, writeResult, M.pure, countCmd_single]
      | some v =>
        have hsc := set_syncword_countCmd Commands.SetPacketType hal 1 v
          ⟨s.drv, s.calls + 1⟩
        simp [hw, hv, writeResult]
        rw [show (BusOp.writeCmd Commands.SetPacketParams
            [c.preamble_length, c.sync_word_length, c.sync_word_match, c.header_type,
             c.payload_length, c.crc_mode, c.whitening] ::
            (set_syncword hal 1 v ⟨s.drv, s.calls + 1⟩).2.2) =
          [BusOp.writeCmd Commands.SetPacketParams
            [c.preamble_length, c.sync_word_length, c.sync_word_match, c.header_type,
             c.payload_length, c.crc_mode, c.whitening]] ++
            (set_syncword hal 1 v ⟨s.drv, s.calls + 1⟩).2.2 from rfl,
          countCmd_append, countCmd_single, hsc]
        simp

/-- A successful set_channel leaves the mirrored packet type equal to the
channel's family and writes SetPacketType at most once. -/
theorem set_channel_ok_pt {fts : Nat → Nat} {hal : Hal} {ch : Channel} {s s2 : DSt}
    {t2 : List BusOp}
    (h : set_channel fts hal ch s = (Except.ok (), s2, t2)) :
    s2.drv.packet_type = PacketType.ofChannel ch ∧
    countCmd Commands.SetPacketType t2 ≤ 1 := by
  unfold set_channel at h
  by_cases hf : ch.frequency < FREQ_MIN ∨ ch.frequency > FREQ_MAX
  · rw [if_pos hf] at h
    simp [throwE] at h
  · rw [if_neg hf] at h
    obtain ⟨a1, s1, t1, t23, hfreq, hrest, htr⟩ := M.bind_ok_inv h
    rw [show set_frequency fts hal ch.frequency =
      write_cmd hal Commands.SetRfFrequency
        [(fts ch.frequency >>> 16) % 256, (fts ch.frequency >>> 8) % 256,
         fts ch.frequency % 256] from rfl, write_cmd_run] at hfreq
    obtain ⟨-, hs1, ht1⟩ := trip_inj hfreq
    obtain ⟨a2, sB, tB, tC, hupd, hwrite, htr2⟩ := M.bind_ok_inv hrest
    simp only [write_cmd_run] at hwrite
    obtain ⟨-, hs2, htC⟩ := trip_inj hwrite
    have hcB : sB.drv.packet_type = PacketType.ofChannel ch ∧
        countCmd Commands.SetPacketType tB ≤ 1 := by
      by_cases heq : s1.drv.packet_type = PacketType.ofChannel ch
      · rw [update_packet_type_eq heq] at hupd
        obtain ⟨-, hB1, hB2⟩ := trip_inj hupd
        rw [← hB1, ← hB2]
        exact ⟨heq, by simp [countCmd]⟩
      · rw [update_packet_type_ne heq] at hupd
        cases hh : hal s1.calls (BusOp.writeCmd Commands.SetPacketType
            [(PacketType.ofChannel ch).toByte]) with
        | ok bs =>
          rw [hh] at hupd
          obtain ⟨-, hB1, hB2⟩ := trip_inj hupd
          rw [← hB1, ← hB2]
          exact ⟨rfl, by simp [countCmd_single]⟩
        | err e =>
          rw [hh] at hupd
          simp at hupd
    refine ⟨?_, ?_⟩
    · rw [← hs2]
      exact hcB.1
    · rw [htr, htr2, countCmd_append, countCmd_append, ← ht1, ← htC]
      have h1 : countCmd Commands.SetPacketType
          [BusOp.writeCmd Commands.SetRfFrequency
            [(fts ch.frequency >>> 16) % 256, (fts ch.frequency >>> 8) % 256,
             fts ch.frequency % 256]] = 0 := by
        simp [countCmd, isCmdWrite]
      have h3 : ∀ d, countCmd Commands.SetPacketType
          [BusOp.writeCmd Commands.SetModulationParams d] = 0 := by
        intro d
        simp [countCmd, isCmdWrite]
      cases ch <;> simp [h1, h3] <;> omega

/-- C4: a successful configure writes the SetPacketType command at most
once: the channel step may switch the packet type, and the modem step then
observes the updated mirror (equal family, by the validation) and skips
the redundant switch; no other step writes SetPacketType. -/
theorem c4_theorem (fts : Nat → Nat) (hal : Hal) (cfg : Config) {s s' : DSt}
    {t : List BusOp}
    (h : configure fts hal cfg s = (Except.ok (), s', t)) :
    countCmd Commands.SetPacketType t ≤ 1 := by
  unfold configure at h
  obtain ⟨a1, s1, t1, trest, hpre, hrest, htr⟩ := M.bind_ok_inv h
  obtain ⟨hfam, hs1, ht1⟩ := configure_prelude_ok hpre
  obtain ⟨a2, s2, t2c, trest2, hch, hrest2, htr2⟩ := M.bind_ok_inv hrest
  obtain ⟨hpt2, hcnt2⟩ := set_channel_ok_pt hch
  obtain ⟨a3, s3, t3c, trest3, hcm, hrest3, htr3⟩ := M.bind_ok_inv hrest2
  rw [modifyDrv_run] at hcm
  obtain ⟨-, hs3, ht3⟩ := trip_inj hcm
  obtain ⟨a4, s4, t4c, trest4, hmod, hrest4, htr4⟩ := M.bind_ok_inv hrest3
  have hptm : s3.drv.packet_type = PacketType.ofModem cfg.modem := by
    rw [← hs3]
    simp only []
    rw [hpt2, ← hfam]
  have h4 : countCmd Commands.SetPacketType t4c = 0 := by
    have hcz := configure_modem_noPT hal hptm
    rw [hmod] at hcz
    exact hcz
  obtain ⟨a5, s5, t5c, trest5, hcm2, hrest5, htr5⟩ := M.bind_ok_inv hrest4
  rw [modifyDrv_run] at hcm2
  obtain ⟨-, -, ht5⟩ := trip_inj hcm2
  obtain ⟨a6, s6, t6c, t7c, hpw, hcm3, htr6⟩ := M.bind_ok_inv hrest5
  rw [set_power_ramp_run] at hpw
  obtain ⟨-, -, ht6⟩ := trip_inj hpw
  rw [modifyDrv_run] at hcm3
  obtain ⟨-, -, ht7⟩ := trip_inj hcm3
  subst htr htr2 htr3 htr4 htr5 htr6
  rw [countCmd_append, countCmd_append, countCmd_append, countCmd_append,
    countCmd_append, countCmd_append]
  rw [ht1, ← ht3, ← ht5, ← ht6, ← ht7, h4]
  have hp0 : countCmd Commands.SetPacketType
      [BusOp.writeCmd Commands.SetStandby [0],
       BusOp.writeCmd Commands.SetRegulatorMode [cfg.regulator_mode]] = 0 := by
    rw [show ([BusOp.writeCmd Commands.SetStandby [0],
        BusOp.writeCmd Commands.SetRegulatorMode [cfg.regulator_mode]]) =
      [BusOp.writeCmd Commands.SetStandby [0]] ++
        [BusOp.writeCmd Commands.SetRegulatorMode [cfg.regulator_mode]] from rfl,
      countCmd_append, countCmd_single, countCmd_single]
    simp
  have hp6 : countCmd Commands.SetPacketType
      [BusOp.writeCmd Commands.SetTxParams
        [(min (max cfg.pa_config.power (-18)) 13 + 18).toNat,
         cfg.pa_config.ramp_time]] = 0 := by
    rw [countCmd_single]
    simp
  rw [hp0, hp6]
  have hnil : countCmd Commands.SetPacketType ([] : List BusOp) = 0 := rfl
  simp only [hnil]
  omega

/-- C4 witness: a concrete successful configure run (all-succeeding bus,
LoRa configuration from the fresh driver state) contains at most one
SetPacketType write in its trace. -/
theorem c4_witness :
    countCmd Commands.SetPacketType (configure ftsId halOk cfgPa5 s0).2.2 ≤ 1 := by
  exact c4_theorem ftsId halOk cfgPa5 (s := s0) rfl

/-- C10 witness at concrete BLE/BLE and Ranging/Ranging configurations. -/
theorem c10_witness :
    configure ftsId halOk cfgBle s0 =
      (Except.error Error.InvalidConfiguration, ⟨buildSt, 1⟩,
       [BusOp.writeCmd Commands.SetStandby [0]]) ∧
    configure ftsId halOk cfgRanging s0 =
      (Except.error Error.InvalidConfiguration, ⟨buildSt, 1⟩,
       [BusOp.writeCmd Commands.SetStandby [0]]) :=
  ⟨c10_theorem ftsId halOk cfgBle s0 []
      (Or.inl ⟨blePacketSample, bleChannelSample, rfl, rfl⟩) rfl,
   c10_theorem ftsId halOk cfgRanging s0 []
      (Or.inr ⟨loraPacketSample, loraChannelSample, rfl, rfl⟩) rfl⟩

end Sx128x
